import Mathlib

/-!
Verification development for two PaddleRS source files:

* `src/paddlers/models/ppdet/modeling/heads/centernet_head.py`
  (the CenterNet detection head, namespace `PaddleRS.CenterNet` below), and
* `src/paddlers/models/paddleseg/cvlibs/config.py`
  (the YAML configuration loader, namespace `PaddleRS.SegConfig` below).

The Python code is shallowly embedded: tensors become nested lists of
rationals, Python dicts become association lists with string keys, Python
exceptions become `Except String`, and unbounded recursion is made total
with an explicit fuel argument (a fuel-exhaustion error is distinct from
every genuine Python error, and all theorems that inspect results are
conditioned on a successful, i.e. fuel-sufficient, run).
-/

/-- Lookup in an association list with string keys; models Python
`d.get(k)` / `d[k]` for `dict`s (first matching key wins; Python dicts
hold each key at most once). -/
def lookupKey {α : Type} (d : List (String × α)) (k : String) : Option α :=
  (d.find? (fun p => p.1 == k)).map Prod.snd

/-- Membership test, models Python `k in d` for a `dict`. -/
def hasKey {α : Type} (d : List (String × α)) (k : String) : Bool :=
  d.any (fun p => p.1 == k)

/-- Models Python `d[k] = v` on a `dict`: overwrite the value when the key
is present (keeping its position), append otherwise. -/
def setKey {α : Type} (d : List (String × α)) (k : String) (v : α) :
    List (String × α) :=
  if hasKey d k then d.map (fun p => if p.1 == k then (k, v) else p)
  else d ++ [(k, v)]

/-- Models Python `d.pop(k)` / `del d[k]` on a `dict` (a Python dict holds
a key at most once, so filtering out all occurrences agrees with it). -/
def eraseKey {α : Type} (d : List (String × α)) (k : String) :
    List (String × α) :=
  d.filter (fun p => p.1 ≠ k)

/-- Sum `f 0 + f 1 + ... + f (n-1)`; the building block used to model
tensor sum reductions. -/
def sumOver : Nat → (Nat → ℚ) → ℚ
  | 0, _ => 0
  | n + 1, f => sumOver n f + f n

theorem sumOver_congr (n : Nat) (f g : Nat → ℚ) (h : ∀ i, i < n → f i = g i) :
    sumOver n f = sumOver n g := by
  induction n with
  | zero => rfl
  | succ n ih =>
    unfold sumOver
    rw [ih (fun i hi => h i (Nat.lt_succ_of_lt hi)), h n (Nat.lt_succ_self n)]

theorem sumOver_eq_zero (n : Nat) (f : Nat → ℚ) (h : ∀ i, i < n → f i = 0) :
    sumOver n f = 0 := by
  induction n with
  | zero => rfl
  | succ n ih =>
    unfold sumOver
    rw [ih (fun i hi => h i (Nat.lt_succ_of_lt hi)), h n (Nat.lt_succ_self n)]
    exact add_zero 0

theorem getD_range_map {α : Type} (f : Nat → α) (n b : Nat) (d : α)
    (h : b < n) : ((List.range n).map f).getD b d = f b := by
  rw [List.getD_eq_getElem?_getD, List.getElem?_map, List.getElem?_range h]
  rfl

theorem length_range_map {α : Type} (f : Nat → α) (n : Nat) :
    ((List.range n).map f).length = n := by
  simp

namespace PaddleRS

namespace CenterNet

/-- Batched flat tensors and their nestings: `T1` is a vector of entries,
`T2 = [batch][k]`, `T3 = [batch][k][channel]`, `T4 = [n][c][h][w]`. -/
abbrev T1 := List ℚ

abbrev T2 := List (List ℚ)

abbrev T3 := List (List (List ℚ))

abbrev T4 := List (List (List (List ℚ)))

/-- The literal `1e-4` used by `get_loss` (exact, as a rational). -/
def epsQ : ℚ := 1 / 10000

/-- Models `paddle.clip(x, lo, hi)`. -/
def clipQ (lo hi x : ℚ) : ℚ := min (max x lo) hi

/-- The state a `CenterNetHead` carries after `__init__`
(`centernet_head.py`, lines 75-147): the constructor arguments that the
forward/loss computations read.  The convolutional sublayers themselves
are not modelled; the theorems take the branch outputs as inputs. -/
structure CenterNetHead where
  regress_ltrb : Bool
  heatmap_weight : ℚ
  size_weight : ℚ
  offset_weight : ℚ
  iou_weight : ℚ
  size_loss : String

/-- The `self.weights` dict built in `__init__` (lines 87-92). -/
def CenterNetHead.weights (h : CenterNetHead) : String → ℚ := fun k =>
  if k = "heatmap" then h.heatmap_weight
  else if k = "size" then h.size_weight
  else if k = "offset" then h.offset_weight
  else if k = "iou" then h.iou_weight
  else 0

/-- The attribute names assigned on the layer: `training` (from
`nn.Layer`), the attributes set in `__init__` (lines 86-129), and `iou`
exactly when `iou_weight > 0` (lines 132-147).  Note that `iou_weight`
itself is never assigned as an attribute: it is only stored inside the
`self.weights` dict. -/
def CenterNetHead.attrNames (h : CenterNetHead) : List String :=
  ["training", "regress_ltrb", "weights", "heatmap", "size", "size_loss",
    "offset"] ++ (if 0 < h.iou_weight then ["iou"] else [])

/-- Models Python `hasattr(self, a)` on a `CenterNetHead`. -/
def CenterNetHead.hasAttr (h : CenterNetHead) (a : String) : Bool :=
  h.attrNames.contains a

/-- Out-of-range reads default to `0` / `[]`; all theorems about concrete
runs use well-shaped tensors, where the defaults are never hit. -/
def at1 (t : T1) (i : Nat) : ℚ := t.getD i 0

def sub2 (t : T2) (i : Nat) : T1 := t.getD i []

def sub3 (t : T3) (i : Nat) : T2 := t.getD i []

def sub4 (t : T4) (i : Nat) : T3 := t.getD i []

def at2 (t : T2) (b k : Nat) : ℚ := at1 (sub2 t b) k

def row3 (t : T3) (b k : Nat) : T1 := sub2 (sub3 t b) k

def at3 (t : T3) (b k c : Nat) : ℚ := at1 (row3 t b k) c

/-- One batch element of `paddle.transpose(x, perm=[0, 2, 3, 1])` followed
by `paddle.reshape(x, [n, -1, c])` (lines 182-184 and 237-239): turn the
`[c][h][w]` channel-major layout into a flat `[h*w][c]` list of
per-position channel vectors. -/
def nchwToFlat (chans : T3) : T2 :=
  match chans with
  | [] => []
  | c0 :: _ =>
    (List.range c0.length).flatMap (fun hh =>
      (List.range (c0.getD hh []).length).map (fun w =>
        chans.map (fun c => (c.getD hh []).getD w 0)))

/-- `[n][c][h][w]` to `[n][h*w][c]`, the layout `get_loss` gathers from. -/
def reshapeFlat (t : T4) : T3 := t.map nchwToFlat

/-- Models lines 185-193: pair each flat spatial index in
`inputs['index']` with its batch index and `paddle.gather_nd`; the result
satisfies `gatherPos t index [b][k] = t[b][index[b][k]]`. -/
def gatherPos (t : T3) (index : List (List Nat)) : T3 :=
  (List.range t.length).map (fun b =>
    (index.getD b []).map (fun i => sub2 (sub3 t b) i))

/-- Models lines 194-197 (and 241-243, 258-260): `paddle.unsqueeze` the
mask, `paddle.expand_as` it to the gathered tensor's `[n][k][c]` shape and
sum every entry.  Each `(b, k)` slot contributes `channels * mask[b][k]`. -/
def maskExpandSum (mask : T2) (pos : T3) : ℚ :=
  sumOver pos.length (fun b =>
    sumOver (sub3 pos b).length (fun k =>
      ((row3 pos b k).length : ℚ) * at2 mask b k))

/-- Models `F.l1_loss(pos * mask, target * mask, reduction='sum')`
(lines 214-215 and 246-249) with the mask already expanded to the
`[n][k][c]` shape of `pos`. -/
def l1MaskedSum (pos target : T3) (mask : T2) : ℚ :=
  sumOver pos.length (fun b =>
    sumOver (sub3 pos b).length (fun k =>
      sumOver (row3 pos b k).length (fun c =>
        |at3 pos b k c * at2 mask b k - at3 target b k c * at2 mask b k|)))

/-- Models line 211: `inputs['size'][:, :, 0:2] + inputs['size'][:, :, 2:]`. -/
def whFromLtrb (t : T3) : T3 :=
  t.map (fun bm => bm.map (fun row =>
    List.zipWith (fun a b => a + b) (row.take 2) (row.drop 2)))

/-- Models `inputs['size'].shape[-1]` (line 204). -/
def lastDim3 (t : T3) : Nat := ((t.headD []).headD []).length

/-- Models lines 220-226 (and 264-270): reconstruct predicted boxes
`[cx - p0, cy - p1, cx + p2, cy + p3]` around the centers of the
ground-truth boxes `gt`, one box per gathered `(b, k)` slot of `pos`. -/
def mkPredBoxes (gt pos : T3) : T3 :=
  (List.range pos.length).map (fun b =>
    (List.range (sub3 pos b).length).map (fun k =>
      let g := row3 gt b k
      let p := row3 pos b k
      let cx := (at1 g 0 + at1 g 2) / 2
      let cy := (at1 g 1 + at1 g 3) / 2
      [cx - at1 p 0, cy - at1 p 1, cx + at1 p 2, cy + at1 p 3]))

/-- Elementwise multiplication of a `[n][k][c]` tensor by a `[n][k]` mask
broadcast over the channel dimension (`pred_boxes * size_mask` etc.). -/
def scaleByMask (t : T3) (mask : T2) : T3 :=
  (List.range t.length).map (fun b =>
    (List.range (sub3 t b).length).map (fun k =>
      (row3 t b k).map (fun x => x * at2 mask b k)))

/-- Modelled from the spec: `GIoULoss` lives in
`paddlers/models/ppdet/modeling/losses`, which is not under `src/`; the
glossary describes it as the standard GIoU loss for bounding-box
regression.  `giouTerm` is the per-box loss `1 - GIoU(p, g)` on boxes
`[x1, y1, x2, y2]` (division by zero is the `ℚ` default `0`). -/
def giouTerm (p g : T1) : ℚ :=
  let areaP := max (at1 p 2 - at1 p 0) 0 * max (at1 p 3 - at1 p 1) 0
  let areaG := max (at1 g 2 - at1 g 0) 0 * max (at1 g 3 - at1 g 1) 0
  let iw := max (min (at1 p 2) (at1 g 2) - max (at1 p 0) (at1 g 0)) 0
  let ih := max (min (at1 p 3) (at1 g 3) - max (at1 p 1) (at1 g 1)) 0
  let inter := iw * ih
  let uni := areaP + areaG - inter
  let ew := max (at1 p 2) (at1 g 2) - min (at1 p 0) (at1 g 0)
  let eh := max (at1 p 3) (at1 g 3) - min (at1 p 1) (at1 g 1)
  let areaC := ew * eh
  1 - (inter / uni - (areaC - uni) / areaC)

/-- Modelled from the spec: `GIoULoss(reduction='sum')` applied with a
per-slot weight (`iou_weight=` argument at lines 227-232 and 271-276):
the per-box terms are summed, each multiplied by its weight. -/
def giouLossSum (pred gt : T3) (w : T2) : ℚ :=
  sumOver pred.length (fun b =>
    sumOver (sub3 pred b).length (fun k =>
      giouTerm (row3 pred b k) (row3 gt b k) * at2 w b k))

/-- Elementwise map over a 4-d tensor (`F.sigmoid`, `paddle.clip`). -/
def map4 (f : ℚ → ℚ) (t : T4) : T4 :=
  t.map (fun a => a.map (fun b => b.map (fun c => c.map f)))

/-- The entries of the `inputs` dict that `get_loss` reads. -/
structure LossInputs where
  heatmap : T4
  index : List (List Nat)
  index_mask : T2
  size : T3
  offset : T3
  bbox_xys : T3

/-- Embedding of `CenterNetHead.get_loss` (lines 172-291).  `ctFocal`
abstracts `CTFocalLoss()` and `sigmoid` abstracts `F.sigmoid` (both are
transcendental / out-of-`src` code; the claims proved below do not depend
on their values).  When `self.size_loss` is neither `'L1'` nor `'giou'`
neither branch of lines 199-233 assigns the local `size_loss`, and the
dict construction at line 281 raises `UnboundLocalError`; this is modelled
by the `none` case of `sizeLossVal`. -/
def getLoss (ctFocal : T4 → T4 → ℚ) (sigmoid : ℚ → ℚ)
    (head : CenterNetHead) (weights : String → ℚ) (inputs : LossInputs)
    (heatmapP sizeP offsetP : T4) (iouP : Option T4) :
    Except String (List (String × ℚ)) :=
  let heatmapClipped := map4 (fun x => clipQ epsQ (1 - epsQ) (sigmoid x)) heatmapP
  let heatmap_loss := ctFocal heatmapClipped inputs.heatmap
  let pos_size := gatherPos (reshapeFlat sizeP) inputs.index
  let pos_num := maskExpandSum inputs.index_mask pos_size
  let sizeLossVal : Option ℚ :=
    if head.size_loss = "L1" then
      let size_target :=
        if head.regress_ltrb then inputs.size
        else if lastDim3 inputs.size = 2 then inputs.size
        else whFromLtrb inputs.size
      some (l1MaskedSum pos_size size_target inputs.index_mask / (pos_num + epsQ))
    else if head.size_loss = "giou" then
      let pred_boxes := mkPredBoxes inputs.bbox_xys pos_size
      some (giouLossSum (scaleByMask pred_boxes inputs.index_mask)
        (scaleByMask inputs.bbox_xys inputs.index_mask) inputs.index_mask
        / (pos_num + epsQ))
    else none
  let pos_offset := gatherPos (reshapeFlat offsetP) inputs.index
  let pos_num_off := maskExpandSum inputs.index_mask pos_offset
  let offset_loss :=
    l1MaskedSum pos_offset inputs.offset inputs.index_mask / (pos_num_off + epsQ)
  let iouLossVal : Option ℚ := iouP.map (fun t =>
    let pos_iou := gatherPos (reshapeFlat t) inputs.index
    let pos_num_iou := maskExpandSum inputs.index_mask pos_iou
    let pred_boxes := mkPredBoxes inputs.bbox_xys pos_size
    giouLossSum (scaleByMask pred_boxes inputs.index_mask)
      (scaleByMask inputs.bbox_xys inputs.index_mask) inputs.index_mask
      / (pos_num_iou + epsQ))
  match sizeLossVal with
  | none => Except.error "UnboundLocalError: size_loss"
  | some sl =>
    let det := weights "heatmap" * heatmap_loss + weights "size" * sl +
      weights "offset" * offset_loss
    match iouLossVal with
    | some il =>
      Except.ok [("heatmap_loss", heatmap_loss), ("size_loss", sl),
        ("offset_loss", offset_loss), ("iou_loss", il),
        ("det_loss", det + weights "iou" * il)]
    | none =>
      Except.ok [("heatmap_loss", heatmap_loss), ("size_loss", sl),
        ("offset_loss", offset_loss), ("det_loss", det)]

/-- Line 159: `iou = self.iou(feat) if hasattr(self, 'iou_weight') else
None`.  If the guard held without the `iou` sublayer existing, accessing
`self.iou` would raise `AttributeError`. -/
def forwardIouOut (head : CenterNetHead) (iouBranch : T4) :
    Except String (Option T4) :=
  if head.hasAttr "iou_weight" then
    if 0 < head.iou_weight then Except.ok (some iouBranch)
    else Except.error "AttributeError: iou"
  else Except.ok none

inductive ForwardOut where
  | losses : List (String × ℚ) → ForwardOut
  | headOuts : List (String × T4) → ForwardOut
deriving DecidableEq

/-- Embedding of `CenterNetHead.forward` (lines 155-170).  The four
sublayer applications `self.heatmap(feat)` etc. are abstracted by passing
their outputs `heatmapP`, `sizeP`, `offsetP`, `iouBranch` directly. -/
def forward (ctFocal : T4 → T4 → ℚ) (sigmoid : ℚ → ℚ)
    (head : CenterNetHead) (training : Bool) (inputs : LossInputs)
    (heatmapP sizeP offsetP iouBranch : T4) : Except String ForwardOut :=
  match forwardIouOut head iouBranch with
  | Except.error e => Except.error e
  | Except.ok iou =>
    if training then
      (getLoss ctFocal sigmoid head head.weights inputs heatmapP sizeP
        offsetP iou).map ForwardOut.losses
    else
      let hm := map4 sigmoid heatmapP
      Except.ok (ForwardOut.headOuts (match iou with
        | some t => [("heatmap", hm), ("size", sizeP), ("offset", offsetP),
            ("iou", t)]
        | none => [("heatmap", hm), ("size", sizeP), ("offset", offsetP)]))

end CenterNet

end PaddleRS

namespace PaddleRS

namespace CenterNet

theorem length_reshapeFlat (t : T4) : (reshapeFlat t).length = t.length := by
  simp [reshapeFlat]

theorem length_gatherPos (t : T3) (index : List (List Nat)) :
    (gatherPos t index).length = t.length := by
  simp [gatherPos]

theorem sub3_gatherPos (t : T3) (index : List (List Nat)) (b : Nat)
    (hb : b < t.length) :
    sub3 (gatherPos t index) b = (index.getD b []).map (fun i => sub2 (sub3 t b) i) := by
  unfold gatherPos sub3
  exact getD_range_map _ _ _ _ hb

theorem length_sub3_gatherPos (t : T3) (index : List (List Nat)) (b : Nat)
    (hb : b < t.length) :
    (sub3 (gatherPos t index) b).length = (index.getD b []).length := by
  rw [sub3_gatherPos _ _ _ hb, List.length_map]

theorem length_scaleByMask (t : T3) (mask : T2) :
    (scaleByMask t mask).length = t.length := by
  simp [scaleByMask]

theorem sub3_scaleByMask (t : T3) (mask : T2) (b : Nat) (hb : b < t.length) :
    sub3 (scaleByMask t mask) b =
      (List.range (sub3 t b).length).map (fun k =>
        (row3 t b k).map (fun x => x * at2 mask b k)) := by
  unfold scaleByMask sub3
  exact getD_range_map _ _ _ _ hb

theorem length_sub3_scaleByMask (t : T3) (mask : T2) (b : Nat) (hb : b < t.length) :
    (sub3 (scaleByMask t mask) b).length = (sub3 t b).length := by
  rw [sub3_scaleByMask _ _ _ hb]
  simp

theorem row3_scaleByMask (t : T3) (mask : T2) (b k : Nat) (hb : b < t.length)
    (hk : k < (sub3 t b).length) :
    row3 (scaleByMask t mask) b k = (row3 t b k).map (fun x => x * at2 mask b k) := by
  unfold row3
  rw [sub3_scaleByMask _ _ _ hb]
  unfold sub2
  exact getD_range_map _ _ _ _ hk

theorem length_mkPredBoxes (gt pos : T3) : (mkPredBoxes gt pos).length = pos.length := by
  simp [mkPredBoxes]

theorem sub3_mkPredBoxes (gt pos : T3) (b : Nat) (hb : b < pos.length) :
    sub3 (mkPredBoxes gt pos) b = (List.range (sub3 pos b).length).map (fun k =>
      let g := row3 gt b k
      let p := row3 pos b k
      let cx := (at1 g 0 + at1 g 2) / 2
      let cy := (at1 g 1 + at1 g 3) / 2
      [cx - at1 p 0, cy - at1 p 1, cx + at1 p 2, cy + at1 p 3]) := by
  unfold mkPredBoxes sub3
  exact getD_range_map _ _ _ _ hb

theorem length_sub3_mkPredBoxes (gt pos : T3) (b : Nat) (hb : b < pos.length) :
    (sub3 (mkPredBoxes gt pos) b).length = (sub3 pos b).length := by
  rw [sub3_mkPredBoxes _ _ _ hb]
  simp

theorem row3_mkPredBoxes (gt pos : T3) (b k : Nat) (hb : b < pos.length)
    (hk : k < (sub3 pos b).length) :
    row3 (mkPredBoxes gt pos) b k =
      [(at1 (row3 gt b k) 0 + at1 (row3 gt b k) 2) / 2 - at1 (row3 pos b k) 0,
       (at1 (row3 gt b k) 1 + at1 (row3 gt b k) 3) / 2 - at1 (row3 pos b k) 1,
       (at1 (row3 gt b k) 0 + at1 (row3 gt b k) 2) / 2 + at1 (row3 pos b k) 2,
       (at1 (row3 gt b k) 1 + at1 (row3 gt b k) 3) / 2 + at1 (row3 pos b k) 3] := by
  unfold row3
  rw [sub3_mkPredBoxes _ _ _ hb]
  unfold sub2
  exact getD_range_map _ _ _ _ hk

theorem masked_sums_congr (P P2 target : T3) (mask : T2)
    (hlen : P.length = P2.length)
    (hsublen : ∀ b, b < P.length → (sub3 P b).length = (sub3 P2 b).length)
    (hagree : ∀ b, b < P.length → ∀ k, k < (sub3 P b).length →
      at2 mask b k ≠ 0 → row3 P b k = row3 P2 b k) :
    l1MaskedSum P target mask = l1MaskedSum P2 target mask ∧
      maskExpandSum mask P = maskExpandSum mask P2 := by
  constructor
  · unfold l1MaskedSum
    rw [← hlen]
    apply sumOver_congr
    intro b hb
    rw [← hsublen b hb]
    apply sumOver_congr
    intro k hk
    by_cases hm : at2 mask b k = 0
    · rw [hm]
      rw [sumOver_eq_zero _ _ (fun c _ => by rw [mul_zero, mul_zero, sub_zero, abs_zero]),
        sumOver_eq_zero _ _ (fun c _ => by rw [mul_zero, mul_zero, sub_zero, abs_zero])]
    · have hrow := hagree b hb k hk hm
      simp only [at3]
      rw [hrow]
  · unfold maskExpandSum
    rw [← hlen]
    apply sumOver_congr
    intro b hb
    rw [← hsublen b hb]
    apply sumOver_congr
    intro k hk
    by_cases hm : at2 mask b k = 0
    · rw [hm, mul_zero, mul_zero]
    · rw [hagree b hb k hk hm]

theorem giou_masked_congr (P P2 gt : T3) (mask : T2)
    (hlen : P.length = P2.length)
    (hsublen : ∀ b, b < P.length → (sub3 P b).length = (sub3 P2 b).length)
    (hagree : ∀ b, b < P.length → ∀ k, k < (sub3 P b).length →
      at2 mask b k ≠ 0 → row3 P b k = row3 P2 b k) :
    giouLossSum (scaleByMask (mkPredBoxes gt P) mask) (scaleByMask gt mask) mask =
      giouLossSum (scaleByMask (mkPredBoxes gt P2) mask) (scaleByMask gt mask) mask := by
  unfold giouLossSum
  rw [length_scaleByMask, length_scaleByMask, length_mkPredBoxes, length_mkPredBoxes,
    ← hlen]
  apply sumOver_congr
  intro b hb
  have hb2 : b < P2.length := hlen ▸ hb
  have hbp : b < (mkPredBoxes gt P).length := by rw [length_mkPredBoxes]; exact hb
  have hbp2 : b < (mkPredBoxes gt P2).length := by rw [length_mkPredBoxes]; exact hb2
  rw [length_sub3_scaleByMask _ _ _ hbp, length_sub3_scaleByMask _ _ _ hbp2,
    length_sub3_mkPredBoxes _ _ _ hb, length_sub3_mkPredBoxes _ _ _ hb2,
    ← hsublen b hb]
  apply sumOver_congr
  intro k hk
  by_cases hm : at2 mask b k = 0
  · rw [hm, mul_zero, mul_zero]
  · have hrow := hagree b hb k hk hm
    have hk2 : k < (sub3 P2 b).length := hsublen b hb ▸ hk
    have hkp : k < (sub3 (mkPredBoxes gt P) b).length := by
      rw [length_sub3_mkPredBoxes _ _ _ hb]; exact hk
    have hkp2 : k < (sub3 (mkPredBoxes gt P2) b).length := by
      rw [length_sub3_mkPredBoxes _ _ _ hb2]; exact hk2
    rw [row3_scaleByMask _ _ _ _ hbp hkp, row3_scaleByMask _ _ _ _ hbp2 hkp2,
      row3_mkPredBoxes _ _ _ _ hb hk, row3_mkPredBoxes _ _ _ _ hb2 hk2, hrow]





theorem getLoss_L1_lookups (ctFocal : T4 → T4 → ℚ) (sigmoid : ℚ → ℚ)
    (head : CenterNetHead) (weights : String → ℚ) (inputs : LossInputs)
    (hp sp op : T4) (iouP : Option T4) (l : List (String × ℚ))
    (hsl : head.size_loss = "L1") (hreg : head.regress_ltrb = true)
    (h : getLoss ctFocal sigmoid head weights inputs hp sp op iouP = Except.ok l) :
    lookupKey l "heatmap_loss" =
        some (ctFocal (map4 (fun x => clipQ epsQ (1 - epsQ) (sigmoid x)) hp)
          inputs.heatmap) ∧
    lookupKey l "size_loss" =
        some (l1MaskedSum (gatherPos (reshapeFlat sp) inputs.index) inputs.size
            inputs.index_mask /
          (maskExpandSum inputs.index_mask (gatherPos (reshapeFlat sp) inputs.index)
            + epsQ)) ∧
    lookupKey l "offset_loss" =
        some (l1MaskedSum (gatherPos (reshapeFlat op) inputs.index) inputs.offset
            inputs.index_mask /
          (maskExpandSum inputs.index_mask (gatherPos (reshapeFlat op) inputs.index)
            + epsQ)) := by
  cases iouP with
  | none =>
    simp [getLoss, hsl, hreg] at h
    subst h
    exact ⟨rfl, rfl, rfl⟩
  | some t =>
    simp [getLoss, hsl, hreg] at h
    subst h
    exact ⟨rfl, rfl, rfl⟩

theorem getLoss_giou_lookup (ctFocal : T4 → T4 → ℚ) (sigmoid : ℚ → ℚ)
    (head : CenterNetHead) (weights : String → ℚ) (inputs : LossInputs)
    (hp sp op : T4) (iouP : Option T4) (l : List (String × ℚ))
    (hsl : head.size_loss = "giou")
    (h : getLoss ctFocal sigmoid head weights inputs hp sp op iouP = Except.ok l) :
    lookupKey l "size_loss" =
        some (giouLossSum
            (scaleByMask (mkPredBoxes inputs.bbox_xys
              (gatherPos (reshapeFlat sp) inputs.index)) inputs.index_mask)
            (scaleByMask inputs.bbox_xys inputs.index_mask) inputs.index_mask /
          (maskExpandSum inputs.index_mask (gatherPos (reshapeFlat sp) inputs.index)
            + epsQ)) := by
  cases iouP with
  | none =>
    simp [getLoss, hsl] at h
    subst h
    rfl
  | some t =>
    simp [getLoss, hsl] at h
    subst h
    rfl





theorem c7_masked_losses (ctFocal : T4 → T4 → ℚ) (sigmoid : ℚ → ℚ)
    (head head2 : CenterNetHead) (weights weights2 : String → ℚ)
    (inputs : LossInputs) (hp sp sp2 op op2 : T4)
    (iouP iouP2 iouP3 iouP4 : Option T4) (l l2 l3 l4 : List (String × ℚ))
    (hsl : head.size_loss = "L1") (hreg : head.regress_ltrb = true)
    (hsl2 : head2.size_loss = "giou")
    (hlen : sp.length = sp2.length) (holen : op.length = op2.length)
    (hagree : ∀ b, b < sp.length → ∀ k, k < (inputs.index.getD b []).length →
      at2 inputs.index_mask b k ≠ 0 →
      row3 (gatherPos (reshapeFlat sp) inputs.index) b k
        = row3 (gatherPos (reshapeFlat sp2) inputs.index) b k)
    (hoagree : ∀ b, b < op.length → ∀ k, k < (inputs.index.getD b []).length →
      at2 inputs.index_mask b k ≠ 0 →
      row3 (gatherPos (reshapeFlat op) inputs.index) b k
        = row3 (gatherPos (reshapeFlat op2) inputs.index) b k)
    (h1 : getLoss ctFocal sigmoid head weights inputs hp sp op iouP = Except.ok l)
    (h2 : getLoss ctFocal sigmoid head weights inputs hp sp2 op2 iouP2 = Except.ok l2)
    (h3 : getLoss ctFocal sigmoid head2 weights2 inputs hp sp op iouP3 = Except.ok l3)
    (h4 : getLoss ctFocal sigmoid head2 weights2 inputs hp sp2 op iouP4 = Except.ok l4) :
    lookupKey l "heatmap_loss" =
        some (ctFocal (map4 (fun x => clipQ epsQ (1 - epsQ) (sigmoid x)) hp)
          inputs.heatmap) ∧
    lookupKey l "size_loss" =
        some (l1MaskedSum (gatherPos (reshapeFlat sp) inputs.index) inputs.size
            inputs.index_mask /
          (maskExpandSum inputs.index_mask (gatherPos (reshapeFlat sp) inputs.index)
            + epsQ)) ∧
    lookupKey l "offset_loss" =
        some (l1MaskedSum (gatherPos (reshapeFlat op) inputs.index) inputs.offset
            inputs.index_mask /
          (maskExpandSum inputs.index_mask (gatherPos (reshapeFlat op) inputs.index)
            + epsQ)) ∧
    lookupKey l3 "size_loss" =
        some (giouLossSum
            (scaleByMask (mkPredBoxes inputs.bbox_xys
              (gatherPos (reshapeFlat sp) inputs.index)) inputs.index_mask)
            (scaleByMask inputs.bbox_xys inputs.index_mask) inputs.index_mask /
          (maskExpandSum inputs.index_mask (gatherPos (reshapeFlat sp) inputs.index)
            + epsQ)) ∧
    lookupKey l "size_loss" = lookupKey l2 "size_loss" ∧
    lookupKey l "offset_loss" = lookupKey l2 "offset_loss" ∧
    lookupKey l3 "size_loss" = lookupKey l4 "size_loss" := by
  obtain ⟨e1h, e1s, e1o⟩ :=
    getLoss_L1_lookups ctFocal sigmoid head weights inputs hp sp op iouP l hsl hreg h1
  obtain ⟨e2h, e2s, e2o⟩ :=
    getLoss_L1_lookups ctFocal sigmoid head weights inputs hp sp2 op2 iouP2 l2 hsl hreg h2
  have e3s := getLoss_giou_lookup ctFocal sigmoid head2 weights2 inputs hp sp op iouP3 l3 hsl2 h3
  have e4s := getLoss_giou_lookup ctFocal sigmoid head2 weights2 inputs hp sp2 op iouP4 l4 hsl2 h4
  have hPlen : (gatherPos (reshapeFlat sp) inputs.index).length = sp.length := by
    rw [length_gatherPos, length_reshapeFlat]
  have hP2len : (gatherPos (reshapeFlat sp2) inputs.index).length = sp2.length := by
    rw [length_gatherPos, length_reshapeFlat]
  have hOlen : (gatherPos (reshapeFlat op) inputs.index).length = op.length := by
    rw [length_gatherPos, length_reshapeFlat]
  have hO2len : (gatherPos (reshapeFlat op2) inputs.index).length = op2.length := by
    rw [length_gatherPos, length_reshapeFlat]
  have hPl : (gatherPos (reshapeFlat sp) inputs.index).length
      = (gatherPos (reshapeFlat sp2) inputs.index).length := by
    rw [hPlen, hP2len, hlen]
  have hOl : (gatherPos (reshapeFlat op) inputs.index).length
      = (gatherPos (reshapeFlat op2) inputs.index).length := by
    rw [hOlen, hO2len, holen]
  have hPsub : ∀ b, b < (gatherPos (reshapeFlat sp) inputs.index).length →
      (sub3 (gatherPos (reshapeFlat sp) inputs.index) b).length
        = (sub3 (gatherPos (reshapeFlat sp2) inputs.index) b).length := by
    intro b hb
    rw [length_sub3_gatherPos _ _ _ (by rw [length_reshapeFlat]; exact hPlen ▸ hb),
      length_sub3_gatherPos _ _ _
        (by rw [length_reshapeFlat, ← hlen]; exact hPlen ▸ hb)]
  have hOsub : ∀ b, b < (gatherPos (reshapeFlat op) inputs.index).length →
      (sub3 (gatherPos (reshapeFlat op) inputs.index) b).length
        = (sub3 (gatherPos (reshapeFlat op2) inputs.index) b).length := by
    intro b hb
    rw [length_sub3_gatherPos _ _ _ (by rw [length_reshapeFlat]; exact hOlen ▸ hb),
      length_sub3_gatherPos _ _ _
        (by rw [length_reshapeFlat, ← holen]; exact hOlen ▸ hb)]
  have hPag : ∀ b, b < (gatherPos (reshapeFlat sp) inputs.index).length →
      ∀ k, k < (sub3 (gatherPos (reshapeFlat sp) inputs.index) b).length →
      at2 inputs.index_mask b k ≠ 0 →
      row3 (gatherPos (reshapeFlat sp) inputs.index) b k
        = row3 (gatherPos (reshapeFlat sp2) inputs.index) b k := by
    intro b hb k hk hm
    have hb' : b < sp.length := hPlen ▸ hb
    have hk' : k < (inputs.index.getD b []).length := by
      rw [length_sub3_gatherPos _ _ _ (by rw [length_reshapeFlat]; exact hb')] at hk
      exact hk
    exact hagree b hb' k hk' hm
  have hOag : ∀ b, b < (gatherPos (reshapeFlat op) inputs.index).length →
      ∀ k, k < (sub3 (gatherPos (reshapeFlat op) inputs.index) b).length →
      at2 inputs.index_mask b k ≠ 0 →
      row3 (gatherPos (reshapeFlat op) inputs.index) b k
        = row3 (gatherPos (reshapeFlat op2) inputs.index) b k := by
    intro b hb k hk hm
    have hb' : b < op.length := hOlen ▸ hb
    have hk' : k < (inputs.index.getD b []).length := by
      rw [length_sub3_gatherPos _ _ _ (by rw [length_reshapeFlat]; exact hb')] at hk
      exact hk
    exact hoagree b hb' k hk' hm
  obtain ⟨eqL1, eqCnt⟩ := masked_sums_congr _ _ inputs.size inputs.index_mask hPl hPsub hPag
  obtain ⟨eqL1o, eqCnto⟩ := masked_sums_congr _ _ inputs.offset inputs.index_mask hOl hOsub hOag
  have eqGiou := giou_masked_congr _ _ inputs.bbox_xys inputs.index_mask hPl hPsub hPag
  refine ⟨e1h, e1s, e1o, e3s, ?_, ?_, ?_⟩
  · rw [e1s, e2s, eqL1, eqCnt]
  · rw [e1o, e2o, eqL1o, eqCnto]
  · rw [e3s, e4s, eqGiou, eqCnt]





def head7 : CenterNetHead :=
  { regress_ltrb := true, heatmap_weight := 1, size_weight := 1/10,
    offset_weight := 1, iou_weight := 0, size_loss := "L1" }

def head7g : CenterNetHead :=
  { regress_ltrb := true, heatmap_weight := 1, size_weight := 2,
    offset_weight := 1, iou_weight := 0, size_loss := "giou" }

def inputs7 : LossInputs :=
  { heatmap := [[[[1, 0]]]], index := [[0, 1]], index_mask := [[1, 0]],
    size := [[[1, 2, 3, 4], [0, 0, 0, 0]]], offset := [[[0, 0], [0, 0]]],
    bbox_xys := [[[0, 0, 2, 2], [0, 0, 0, 0]]] }

def hp7 : T4 := [[[[0, 0]]]]

def sp7 : T4 := [[[[1, 9]], [[2, 9]], [[3, 9]], [[4, 9]]]]

def sp7b : T4 := [[[[1, 7]], [[2, 7]], [[3, 7]], [[4, 7]]]]

def op7 : T4 := [[[[0, 5]], [[1, 5]]]]

def op7b : T4 := [[[[0, 6]], [[1, 6]]]]

end CenterNet

end PaddleRS

namespace PaddleRS

namespace CenterNet

theorem hasAttr_iou_weight_false (head : CenterNetHead) :
    head.hasAttr "iou_weight" = false := by
  unfold CenterNetHead.hasAttr CenterNetHead.attrNames
  split <;> rfl

/-- A head constructed with `iou_weight = 1 > 0` (all other arguments at
their defaults). -/
def headEx : CenterNetHead :=
  { regress_ltrb := true, heatmap_weight := 1, size_weight := 1/10,
    offset_weight := 1, iou_weight := 1, size_loss := "L1" }

def inputsEx : LossInputs :=
  { heatmap := [[[[1]]]], index := [[0]], index_mask := [[1]],
    size := [[[1, 2, 3, 4]]], offset := [[[0, 0]]],
    bbox_xys := [[[0, 0, 2, 2]]] }

def hmPEx : T4 := [[[[0]]]]

def sizePEx : T4 := [[[[1]], [[2]], [[3]], [[4]]]]

def offPEx : T4 := [[[[0]], [[0]]]]

def iouBEx : T4 := [[[[0]], [[0]], [[0]], [[0]]]]

/-- C1: the claim fails on the code and the code contradicts its own
documentation.  For `headEx`, built with `iou_weight = 1 > 0`, the parallel
IoU branch exists (`hasattr(self, 'iou')` holds), but `forward` guards its
use with `hasattr(self, 'iou_weight')`, an attribute that `__init__` never
assigns (the weight only lives in the `self.weights` dict), so the guard is
always false: the eval-mode outputs contain no `'iou'` key and the
training-mode loss dict contains no `'iou_loss'` entry, with `det_loss`
reducing to the three-term sum. -/
theorem c1_iou_branch_never_used :
    (0 < headEx.iou_weight ∧ headEx.hasAttr "iou" = true ∧
      headEx.hasAttr "iou_weight" = false) ∧
    forward (fun _ _ => 0) id headEx false inputsEx hmPEx sizePEx offPEx iouBEx
      = Except.ok (ForwardOut.headOuts
          [("heatmap", hmPEx), ("size", sizePEx), ("offset", offPEx)]) ∧
    forward (fun _ _ => 0) id headEx true inputsEx hmPEx sizePEx offPEx iouBEx
      = Except.ok (ForwardOut.losses
          [("heatmap_loss", 0), ("size_loss", 0), ("offset_loss", 0),
            ("det_loss", 0)]) := by
  refine ⟨⟨by norm_num [headEx], rfl, rfl⟩, rfl, ?_⟩
  have hg : getLoss (fun _ _ => 0) id headEx headEx.weights inputsEx hmPEx
      sizePEx offPEx none = Except.ok [("heatmap_loss", 0), ("size_loss", 0),
        ("offset_loss", 0), ("det_loss", 0)] := by
    norm_num [getLoss, headEx, inputsEx, hmPEx, sizePEx, offPEx,
      CenterNetHead.weights, map4, clipQ, epsQ, reshapeFlat, nchwToFlat,
      gatherPos, maskExpandSum, l1MaskedSum, sumOver, at3, at2, at1, row3,
      sub3, sub2, mkPredBoxes, scaleByMask, giouLossSum, giouTerm,
      whFromLtrb, lastDim3, List.range_succ]
  show (getLoss (fun _ _ => 0) id headEx headEx.weights inputsEx hmPEx
      sizePEx offPEx none).map ForwardOut.losses = _
  rw [hg]
  rfl

/-- C4: a successful training-mode `get_loss` returns a dict holding
`heatmap_loss`, `size_loss`, `offset_loss` and `det_loss`, with
`det_loss = heatmap_weight * heatmap_loss + size_weight * size_loss +
offset_weight * offset_loss`; `iou_weight * iou_loss` is added (and
`iou_loss` is included) exactly when an IoU prediction is supplied
(`centernet_head.py`, lines 279-291). -/
theorem c4_get_loss_dict (ctFocal : T4 → T4 → ℚ) (sigmoid : ℚ → ℚ)
    (head : CenterNetHead) (weights : String → ℚ) (inputs : LossInputs)
    (heatmapP sizeP offsetP : T4) (iouP : Option T4) (l : List (String × ℚ))
    (h : getLoss ctFocal sigmoid head weights inputs heatmapP sizeP offsetP
      iouP = Except.ok l) :
    ∃ hl sl ol, lookupKey l "heatmap_loss" = some hl ∧
      lookupKey l "size_loss" = some sl ∧ lookupKey l "offset_loss" = some ol ∧
      ((iouP = none ∧ lookupKey l "iou_loss" = none ∧
          lookupKey l "det_loss" = some (weights "heatmap" * hl +
            weights "size" * sl + weights "offset" * ol)) ∨
        (∃ t il, iouP = some t ∧ lookupKey l "iou_loss" = some il ∧
          lookupKey l "det_loss" = some (weights "heatmap" * hl +
            weights "size" * sl + weights "offset" * ol + weights "iou" * il))) := by
  cases iouP with
  | none =>
    simp only [getLoss, Option.map_none'] at h
    split at h
    · exact absurd h (by simp)
    · rw [Except.ok.injEq] at h
      subst h
      exact ⟨_, _, _, rfl, rfl, rfl, Or.inl ⟨rfl, rfl, rfl⟩⟩
  | some t =>
    simp only [getLoss, Option.map_some'] at h
    split at h
    · exact absurd h (by simp)
    · rw [Except.ok.injEq] at h
      subst h
      exact ⟨_, _, _, rfl, rfl, rfl, Or.inr ⟨t, _, rfl, rfl, rfl⟩⟩

/-- The result of `getLoss` on the concrete example with an IoU
prediction supplied (used by the C4 witness). -/
def c4resEx : List (String × ℚ) :=
  [("heatmap_loss", 0), ("size_loss", 0), ("offset_loss", 0),
    ("iou_loss", 25000/120003), ("det_loss", 25000/120003)]

theorem c4_get_loss_dict_witness :
    ∃ hl sl ol, lookupKey c4resEx "heatmap_loss" = some hl ∧
      lookupKey c4resEx "size_loss" = some sl ∧
      lookupKey c4resEx "offset_loss" = some ol ∧
      ((some iouBEx = none ∧ lookupKey c4resEx "iou_loss" = none ∧
          lookupKey c4resEx "det_loss" = some (headEx.weights "heatmap" * hl +
            headEx.weights "size" * sl + headEx.weights "offset" * ol)) ∨
        (∃ t il, some iouBEx = some t ∧ lookupKey c4resEx "iou_loss" = some il ∧
          lookupKey c4resEx "det_loss" = some (headEx.weights "heatmap" * hl +
            headEx.weights "size" * sl + headEx.weights "offset" * ol +
            headEx.weights "iou" * il))) := by
  have h : getLoss (fun _ _ => 0) id headEx headEx.weights inputsEx hmPEx
      sizePEx offPEx (some iouBEx) = Except.ok c4resEx := by
    norm_num [getLoss, c4resEx, headEx, inputsEx, hmPEx, sizePEx, offPEx,
      iouBEx, CenterNetHead.weights, map4, clipQ, epsQ, reshapeFlat,
      nchwToFlat, gatherPos, maskExpandSum, l1MaskedSum, sumOver, at3, at2,
      at1, row3, sub3, sub2, mkPredBoxes, scaleByMask, giouLossSum, giouTerm,
      whFromLtrb, lastDim3, List.range_succ]
    simp only [String.reduceEq, if_false, ite_false]
    norm_num
  exact c4_get_loss_dict (fun _ _ => 0) id headEx headEx.weights inputsEx
    hmPEx sizePEx offPEx (some iouBEx) c4resEx h

/-- C10: for a head whose `size_loss` is neither `'L1'` nor `'giou'` no
branch of `get_loss` (lines 199-233) assigns the local `size_loss`, so a
training-mode forward pass fails with an unbound-local-variable error when
the loss dict is assembled (line 281). -/
theorem c10_unknown_size_loss_unbound (ctFocal : T4 → T4 → ℚ)
    (sigmoid : ℚ → ℚ) (head : CenterNetHead) (inputs : LossInputs)
    (heatmapP sizeP offsetP iouBranch : T4)
    (hL1 : head.size_loss ≠ "L1") (hgiou : head.size_loss ≠ "giou") :
    forward ctFocal sigmoid head true inputs heatmapP sizeP offsetP iouBranch
      = Except.error "UnboundLocalError: size_loss" := by
  unfold forward forwardIouOut
  rw [hasAttr_iou_weight_false]
  simp only [Bool.false_eq_true, if_false, if_true]
  simp only [getLoss, hL1, hgiou, if_false, Option.map_none']
  rfl

/-- A head constructed with an unsupported `size_loss` value. -/
def badHead : CenterNetHead :=
  { regress_ltrb := true, heatmap_weight := 1, size_weight := 1/10,
    offset_weight := 1, iou_weight := 0, size_loss := "smooth_l1" }

theorem c10_unknown_size_loss_unbound_witness :
    (badHead.size_loss ≠ "L1" ∧ badHead.size_loss ≠ "giou") ∧
    forward (fun _ _ => 0) id badHead true inputsEx hmPEx sizePEx offPEx iouBEx
      = Except.error "UnboundLocalError: size_loss" :=
  ⟨⟨by decide, by decide⟩,
    c10_unknown_size_loss_unbound (fun _ _ => 0) id badHead inputsEx hmPEx
      sizePEx offPEx iouBEx (by decide) (by decide)⟩

end CenterNet

end PaddleRS

namespace PaddleRS

namespace CenterNet

/-- The gathered size predictions of the C7 example. -/
def pos7 : T3 := gatherPos (reshapeFlat sp7) inputs7.index

/-- The gathered offset predictions of the C7 example. -/
def posOff7 : T3 := gatherPos (reshapeFlat op7) inputs7.index

/-- The loss dict of the C7 example for the `'L1'` head. -/
def res7a : List (String × ℚ) :=
  [("heatmap_loss", 3), ("size_loss", 0), ("offset_loss", 10000/20001),
    ("det_loss", 70003/20001)]

/-- The loss dict of the C7 example for the `'giou'` head. -/
def res7c : List (String × ℚ) :=
  [("heatmap_loss", 3), ("size_loss", 25000/120003),
    ("offset_loss", 10000/20001), ("det_loss", 3133540003/800060001)]

set_option maxHeartbeats 2000000 in
theorem c7_masked_losses_witness :
    lookupKey res7a "heatmap_loss" = some 3 ∧
    lookupKey res7a "size_loss" =
        some (l1MaskedSum pos7 inputs7.size inputs7.index_mask /
          (maskExpandSum inputs7.index_mask pos7 + epsQ)) ∧
    lookupKey res7a "offset_loss" =
        some (l1MaskedSum posOff7 inputs7.offset inputs7.index_mask /
          (maskExpandSum inputs7.index_mask posOff7 + epsQ)) ∧
    lookupKey res7c "size_loss" =
        some (giouLossSum
            (scaleByMask (mkPredBoxes inputs7.bbox_xys pos7) inputs7.index_mask)
            (scaleByMask inputs7.bbox_xys inputs7.index_mask) inputs7.index_mask /
          (maskExpandSum inputs7.index_mask pos7 + epsQ)) ∧
    lookupKey res7a "size_loss" = lookupKey res7a "size_loss" ∧
    lookupKey res7a "offset_loss" = lookupKey res7a "offset_loss" ∧
    lookupKey res7c "size_loss" = lookupKey res7c "size_loss" := by
  have h1 : getLoss (fun _ _ => 3) id head7 head7.weights inputs7 hp7 sp7 op7
      none = Except.ok res7a := by
    norm_num [getLoss, res7a, head7, inputs7, hp7, sp7, op7,
      CenterNetHead.weights, map4, clipQ, epsQ, reshapeFlat, nchwToFlat,
      gatherPos, maskExpandSum, l1MaskedSum, sumOver, at3, at2, at1, row3,
      sub3, sub2, mkPredBoxes, scaleByMask, giouLossSum, giouTerm,
      whFromLtrb, lastDim3, List.range_succ]
    simp only [String.reduceEq, if_false, ite_false]
    norm_num
  have h2 : getLoss (fun _ _ => 3) id head7 head7.weights inputs7 hp7 sp7b op7b
      none = Except.ok res7a := by
    norm_num [getLoss, res7a, head7, inputs7, hp7, sp7b, op7b,
      CenterNetHead.weights, map4, clipQ, epsQ, reshapeFlat, nchwToFlat,
      gatherPos, maskExpandSum, l1MaskedSum, sumOver, at3, at2, at1, row3,
      sub3, sub2, mkPredBoxes, scaleByMask, giouLossSum, giouTerm,
      whFromLtrb, lastDim3, List.range_succ]
    simp only [String.reduceEq, if_false, ite_false]
    norm_num
  have h3 : getLoss (fun _ _ => 3) id head7g head7g.weights inputs7 hp7 sp7 op7
      none = Except.ok res7c := by
    norm_num [getLoss, res7c, head7g, inputs7, hp7, sp7, op7,
      CenterNetHead.weights, map4, clipQ, epsQ, reshapeFlat, nchwToFlat,
      gatherPos, maskExpandSum, l1MaskedSum, sumOver, at3, at2, at1, row3,
      sub3, sub2, mkPredBoxes, scaleByMask, giouLossSum, giouTerm,
      whFromLtrb, lastDim3, List.range_succ]
    simp only [String.reduceEq, if_false, ite_false]
    norm_num
  have h4 : getLoss (fun _ _ => 3) id head7g head7g.weights inputs7 hp7 sp7b op7
      none = Except.ok res7c := by
    norm_num [getLoss, res7c, head7g, inputs7, hp7, sp7b, op7,
      CenterNetHead.weights, map4, clipQ, epsQ, reshapeFlat, nchwToFlat,
      gatherPos, maskExpandSum, l1MaskedSum, sumOver, at3, at2, at1, row3,
      sub3, sub2, mkPredBoxes, scaleByMask, giouLossSum, giouTerm,
      whFromLtrb, lastDim3, List.range_succ]
    simp only [String.reduceEq, if_false, ite_false]
    norm_num
  exact c7_masked_losses (fun _ _ => 3) id head7 head7g head7.weights
    head7g.weights inputs7 hp7 sp7 sp7b op7 op7b none none none none
    res7a res7a res7c res7c rfl rfl rfl rfl rfl (by decide) (by decide)
    h1 h2 h3 h4

end CenterNet

end PaddleRS

namespace PaddleRS

namespace SegConfig

/-- Parsed YAML values (`config.py` reads configs with `yaml.load`). -/
inductive YVal where
  | null : YVal
  | bool : Bool → YVal
  | int : Int → YVal
  | str : String → YVal
  | dict : List (String × YVal) → YVal
  | list : List YVal → YVal

abbrev YDict := List (String × YVal)

/-- Models `dic.get('_inherited_', True) == False` (line 111): in Python
the default `True` compares unequal to `False`, and `0 == False` holds. -/
def pyIsFalseGet : Option YVal → Bool
  | some (YVal.bool b) => !b
  | some (YVal.int n) => n == 0
  | _ => false

/-- Python truthiness of a YAML value (`if not cfg: ...`). -/
def pyTruthy : YVal → Bool
  | YVal.null => false
  | YVal.bool b => b
  | YVal.int n => n != 0
  | YVal.str s => !s.isEmpty
  | YVal.dict d => !d.isEmpty
  | YVal.list l => !l.isEmpty

/-- A filesystem path, as its `/`-separated components. -/
abbrev Path := List String

/-- The filesystem: the YAML files that exist, each already parsed. -/
abbrev FileSys := List (Path × YDict)

def lookupPath (fs : FileSys) (p : Path) : Option YDict :=
  (fs.find? (fun q => q.1 == p)).map Prod.snd

/-- Models Python `s.endswith(suff)` (character-level, so that concrete
instances reduce). -/
def endsWithS (s suff : String) : Bool :=
  s.data.reverse.take suff.data.length == suff.data.reverse

/-- Models the path-joining of `os.path.join(cfg_dir, base_path)` for a
relative `base_path`: split on `/` and append to the directory. -/
def splitSlash (s : String) : List String :=
  (s.data.splitOn '/').map String.mk

mutual

/-- Embedding of `Config._update_dic(dic, base_dic)` (`config.py`,
lines 104-121).  The first line `base_dic.copy()` raises `AttributeError`
when the base value is not a dict; if the child maps `'_inherited_'` to a
value Python-equal to `False`, the child replaces the base wholesale with
that key popped; otherwise each child entry overwrites the base entry,
recursing when the child value is a dict and the key exists in the base. -/
def updateDic : Nat → YDict → YVal → Except String YVal
  | 0, _, _ => Except.error "RecursionError"
  | fuel + 1, dic, YVal.dict baseD =>
    if pyIsFalseGet (lookupKey dic "_inherited_") then
      Except.ok (YVal.dict (eraseKey dic "_inherited_"))
    else
      match updateEntries fuel dic baseD with
      | Except.ok r => Except.ok (YVal.dict r)
      | Except.error e => Except.error e
  | _ + 1, _, _ => Except.error "AttributeError: copy"
termination_by fuel _ _ => (fuel, 0)

/-- The `for key, val in dic.items()` loop of `_update_dic`
(lines 115-119), folding the child entries over the (copied) base. -/
def updateEntries : Nat → YDict → YDict → Except String YDict
  | _, [], acc => Except.ok acc
  | fuel, (k, YVal.dict d) :: rest, acc =>
    if hasKey acc k then
      match lookupKey acc k with
      | some bv =>
        match updateDic fuel d bv with
        | Except.ok merged => updateEntries fuel rest (setKey acc k merged)
        | Except.error e => Except.error e
      | none => Except.error "KeyError"
    else updateEntries fuel rest (setKey acc k (YVal.dict d))
  | fuel, (k, v) :: rest, acc => updateEntries fuel rest (setKey acc k v)
termination_by fuel entries _ => (fuel, entries.length + 1)

end

/-- Embedding of `Config._parse_from_yaml(path)` (lines 123-134): parse
the file; when the top-level mapping holds `'_base_'`, pop it, resolve the
base path relative to the file's directory, parse the base recursively and
merge the child over it. -/
def parseFromYaml (fs : FileSys) : Nat → Path → Except String YDict
  | 0, _ => Except.error "RecursionError"
  | fuel + 1, path =>
    match lookupPath fs path with
    | none => Except.error "FileNotFoundError"
    | some dic =>
      match lookupKey dic "_base_" with
      | none => Except.ok dic
      | some (YVal.str bp) =>
        match parseFromYaml fs fuel (path.dropLast ++ splitSlash bp) with
        | Except.ok baseDic =>
          match updateDic fuel (eraseKey dic "_base_") (YVal.dict baseDic) with
          | Except.ok (YVal.dict r) => Except.ok r
          | Except.ok _ => Except.error "TypeError"
          | Except.error e => Except.error e
        | Except.error e => Except.error e
      | some _ => Except.error "TypeError: join"

/-- The five component registries searched by `Config._load_component`
(`config.py`, lines 408-419), each modelled by the list of names it
registers.  A constructor is identified by the registry that holds it and
its name. -/
structure Registries where
  MODELS : List String
  BACKBONES : List String
  DATASETS : List String
  TRANSFORMS : List String
  LOSSES : List String

/-- The fixed search order `[MODELS, BACKBONES, DATASETS, TRANSFORMS,
LOSSES]` of `_load_component`. -/
def comList (r : Registries) : List (List String) :=
  [r.MODELS, r.BACKBONES, r.DATASETS, r.TRANSFORMS, r.LOSSES]

/-- The `for com in com_list` loop of `_load_component`: return the
component from the first registry containing the name; when the loop
finishes without returning, the `else` clause raises `RuntimeError`. -/
def loadComponentLoop (name : String) : Nat → List (List String) →
    Except String (Nat × String)
  | _, [] => Except.error "RuntimeError: component not found"
  | i, reg :: rest =>
    if reg.contains name then Except.ok (i, name)
    else loadComponentLoop name (i + 1) rest

/-- Embedding of `Config._load_component(com_name)` (lines 408-419). -/
def loadComponent (r : Registries) (name : String) : Except String (Nat × String) :=
  loadComponentLoop name 0 (comList r)

/-- Values built by `_load_object`: raw YAML values passed verbatim,
rebuilt lists, and constructed components `obj registryIdx name kwargs`
(the constructor call `component(**params)` is modelled symbolically,
keeping the constructor identity and its keyword arguments). -/
inductive OVal where
  | raw : YVal → OVal
  | listV : List OVal → OVal
  | obj : Nat → String → List (String × OVal) → OVal

/-- Embedding of `Config._is_meta_type(item)` (lines 455-456). -/
def isMetaType : YVal → Bool
  | YVal.dict d => hasKey d "type"
  | _ => false

mutual

/-- Embedding of `Config._load_object(cfg)` (lines 421-440): work on a
copy, raise `RuntimeError` without a `'type'` key, resolve the constructor
through `_load_component`, build the remaining entries into keyword
arguments and apply the constructor. -/
def loadObject (r : Registries) : Nat → YDict → Except String OVal
  | 0, _ => Except.error "RecursionError"
  | fuel + 1, cfg =>
    match lookupKey cfg "type" with
    | none => Except.error "RuntimeError: no type"
    | some (YVal.str s) =>
      match loadComponent r s with
      | Except.ok comp =>
        match buildParams r fuel (eraseKey cfg "type") with
        | Except.ok params => Except.ok (OVal.obj comp.1 comp.2 params)
        | Except.error e => Except.error e
      | Except.error e => Except.error e
    | some _ => Except.error "RuntimeError: component not found"
termination_by fuel cfg => (fuel, sizeOf cfg)

/-- The `for key, val in cfg.items()` loop of `_load_object`
(lines 429-438), building the `params` dict entry by entry. -/
def buildParams (r : Registries) : Nat → YDict → Except String (List (String × OVal))
  | _, [] => Except.ok []
  | fuel, (k, v) :: rest =>
    match buildParamVal r fuel v with
    | Except.ok pv =>
      match buildParams r fuel rest with
      | Except.ok ps => Except.ok ((k, pv) :: ps)
      | Except.error e => Except.error e
    | Except.error e => Except.error e
termination_by fuel entries => (fuel, sizeOf entries)

/-- One loop body: recurse on meta-type dicts, rebuild lists recursing on
their meta-type items, pass everything else verbatim. -/
def buildParamVal (r : Registries) : Nat → YVal → Except String OVal
  | fuel, YVal.dict d =>
    if hasKey d "type" then loadObject r fuel d
    else Except.ok (OVal.raw (YVal.dict d))
  | fuel, YVal.list items =>
    match buildItems r fuel items with
    | Except.ok ovs => Except.ok (OVal.listV ovs)
    | Except.error e => Except.error e
  | _, v => Except.ok (OVal.raw v)
termination_by fuel v => (fuel, sizeOf v)

/-- The list comprehension at lines 433-436. -/
def buildItems (r : Registries) : Nat → List YVal → Except String (List OVal)
  | _, [] => Except.ok []
  | fuel, (YVal.dict d) :: rest =>
    match (if hasKey d "type" then loadObject r fuel d
      else Except.ok (OVal.raw (YVal.dict d))) with
    | Except.ok ov =>
      match buildItems r fuel rest with
      | Except.ok ovs => Except.ok (ov :: ovs)
      | Except.error e => Except.error e
    | Except.error e => Except.error e
  | fuel, it :: rest =>
    match buildItems r fuel rest with
    | Except.ok ovs => Except.ok (OVal.raw it :: ovs)
    | Except.error e => Except.error e
termination_by fuel items => (fuel, sizeOf items)

end

mutual

/-- Deep structural equality on YAML values, modelling Python `==` on the
scalars compared by `_prepare_loss`'s assert (ints in practice; `0 ==
False` is not modelled since loss `ignore_index` values are ints). -/
def yvalBeq : YVal → YVal → Bool
  | YVal.null, YVal.null => true
  | YVal.bool a, YVal.bool b => a == b
  | YVal.int a, YVal.int b => a == b
  | YVal.str a, YVal.str b => a == b
  | YVal.dict a, YVal.dict b => ydictBeq a b
  | YVal.list a, YVal.list b => ylistBeq a b
  | _, _ => false

def ydictBeq : List (String × YVal) → List (String × YVal) → Bool
  | [], [] => true
  | (k, v) :: xs, (k2, v2) :: ys => k == k2 && yvalBeq v v2 && ydictBeq xs ys
  | _, _ => false

def ylistBeq : List YVal → List YVal → Bool
  | [], [] => true
  | x :: xs, y :: ys => yvalBeq x y && ylistBeq xs ys
  | _, _ => false

end

mutual

/-- The names of the components constructed inside a built value, in
construction order: the instantiation trace of a `_load_object` call. -/
def builtNames : OVal → List String
  | OVal.raw _ => []
  | OVal.listV l => builtNamesList l
  | OVal.obj _ s ps => s :: builtNamesParams ps

def builtNamesList : List OVal → List String
  | [] => []
  | o :: rest => builtNames o ++ builtNamesList rest

def builtNamesParams : List (String × OVal) → List String
  | [] => []
  | (_, o) :: rest => builtNames o ++ builtNamesParams rest

end

/-- Modelled from the spec: truthiness of values built by the registry
(`if not self._model:` at line 372).  Registered components are models,
backbones, datasets, transforms and losses -- Paddle layers and datasets,
whose instances are truthy Python objects. -/
def ovalTruthy : OVal → Bool
  | OVal.raw v => pyTruthy v
  | OVal.listV l => !l.isEmpty
  | OVal.obj _ _ _ => true

/-- The result of `Config._prepare_loss`: the loaded `types` and the other
entries (`coef` among them) passed through verbatim (lines 347-362). -/
structure PreparedLoss where
  types : List OVal
  others : YDict

/-- The cached state of a `Config` object: `self.dic`, `self._model` and
`self._losses` (lines 83-86). -/
structure ConfigState where
  dic : YDict
  modelCache : Option OVal
  lossesCache : Option PreparedLoss

/-- Nested assignment `dic[k1][k2] = v` as used by `Config.update`
(lines 144-146): `KeyError` when `k1` is absent, `TypeError` when its
value does not support item assignment. -/
def setNested (dic : YDict) (k1 k2 : String) (v : YVal) : Except String YDict :=
  match lookupKey dic k1 with
  | some (YVal.dict inner) => Except.ok (setKey dic k1 (YVal.dict (setKey inner k2 v)))
  | some _ => Except.error "TypeError: item assignment"
  | none => Except.error "KeyError"

/-- Truthiness of an optional override argument (`if learning_rate:` etc.,
Python default `None` being falsy). -/
def argTruthy : Option YVal → Bool
  | some v => pyTruthy v
  | none => false

/-- Embedding of `Config.update(learning_rate, batch_size, iters)`
(lines 136-152) for `opts=None` (the claims below call `Config` without
command-line option overrides, so the `--opts` loop body is never
entered). -/
def updateCfg (dic : YDict) (lr bs iters : Option YVal) : Except String YDict :=
  match (if argTruthy lr then
      (if hasKey dic "lr_scheduler" then
        setNested dic "lr_scheduler" "learning_rate" (lr.getD YVal.null)
      else setNested dic "learning_rate" "value" (lr.getD YVal.null))
    else Except.ok dic) with
  | Except.error e => Except.error e
  | Except.ok dic1 =>
    let dic2 := if argTruthy bs then setKey dic1 "batch_size" (bs.getD YVal.null) else dic1
    let dic3 := if argTruthy iters then setKey dic2 "iters" (iters.getD YVal.null) else dic2
    Except.ok dic3

/-- Embedding of the `train_dataset_config` / `val_dataset_config`
properties (lines 377-382): `self.dic.get(name, {}).copy()`.  Values
without a `.copy` method (strings, numbers, `None`) raise
`AttributeError`. -/
def datasetConfig (dic : YDict) (name : String) : Except String YVal :=
  match lookupKey dic name with
  | none => Except.ok (YVal.dict [])
  | some (YVal.dict d) => Except.ok (YVal.dict d)
  | some (YVal.list l) => Except.ok (YVal.list l)
  | some _ => Except.error "AttributeError: copy"

/-- Models `path.endswith('yml') or path.endswith('yaml')` (line 85) on
the final path component. -/
def pathEndsYaml (p : Path) : Bool :=
  endsWithS (p.getLastD "") "yml" || endsWithS (p.getLastD "") "yaml"

/-- Embedding of `Config.__init__` (lines 71-102): validate the path,
parse the YAML (with `_base_` resolution), apply the overrides, and check
that a model and at least one dataset are configured.  The second
component of a successful result is the instantiation trace: the names of
the registry components constructed during `__init__` (none -- the
constructor only parses and validates). -/
def configInit (fs : FileSys) (fuel : Nat) (path : Path)
    (lr bs iters : Option YVal) : Except String (ConfigState × List String) :=
  if path.isEmpty then Except.error "ValueError: path"
  else if (lookupPath fs path).isNone then Except.error "FileNotFoundError"
  else if pathEndsYaml path then
    match parseFromYaml fs fuel path with
    | Except.error e => Except.error e
    | Except.ok dic0 =>
      match updateCfg dic0 lr bs iters with
      | Except.error e => Except.error e
      | Except.ok dic1 =>
        match lookupKey dic1 "model" with
        | none => Except.error "RuntimeError: no model"
        | some YVal.null => Except.error "RuntimeError: no model"
        | some _ =>
          match datasetConfig dic1 "train_dataset" with
          | Except.error e => Except.error e
          | Except.ok td =>
            match datasetConfig dic1 "val_dataset" with
            | Except.error e => Except.error e
            | Except.ok vd =>
              if !pyTruthy td && !pyTruthy vd then
                Except.error "ValueError: no dataset"
              else
                Except.ok (ConfigState.mk dic1 none none, [])
  else Except.error "RuntimeError: not yaml"

/-- Embedding of the `model` property (lines 369-374): rebuild when the
cache is `None` (or a falsy object -- `if not self._model:`), cache and
return; the trace lists the components constructed by the call. -/
def modelProp (r : Registries) (fuel : Nat) (st : ConfigState) :
    Except String (OVal × ConfigState × List String) :=
  match lookupKey st.dic "model" with
  | some (YVal.dict mcfg) =>
    match st.modelCache with
    | some m =>
      if ovalTruthy m then Except.ok (m, st, [])
      else
        match loadObject r fuel mcfg with
        | Except.ok o =>
          Except.ok (o, { st with modelCache := some o }, builtNames o)
        | Except.error e => Except.error e
    | none =>
      match loadObject r fuel mcfg with
      | Except.ok o =>
        Except.ok (o, { st with modelCache := some o }, builtNames o)
      | Except.error e => Except.error e
  | some _ => Except.error "AttributeError: copy"
  | none => Except.error "AttributeError: copy"

/-- Embedding of the `train_dataset` property (lines 394-399): `None`
when the config is empty, otherwise `_load_object` on it. -/
def trainDataset (r : Registries) (fuel : Nat) (dic : YDict) :
    Except String (Option OVal) :=
  match datasetConfig dic "train_dataset" with
  | Except.error e => Except.error e
  | Except.ok td =>
    if pyTruthy td then
      match td with
      | YVal.dict d =>
        match loadObject r fuel d with
        | Except.ok o => Except.ok (some o)
        | Except.error e => Except.error e
      | _ => Except.error "TypeError: load_object"
    else Except.ok none

/-- Modelled from the spec: the `ignore_index` attribute of an
instantiated dataset.  Dataset classes are not under `src/`; paddleseg
datasets take an `ignore_index` keyword argument and default it to 255. -/
def datasetIgnoreIndex : OVal → YVal
  | OVal.obj _ _ ps =>
    match lookupKey ps "ignore_index" with
    | some (OVal.raw v) => v
    | _ => YVal.int 255
  | _ => YVal.int 255

/-- `self.train_dataset.ignore_index` as evaluated inside `_prepare_loss`
(line 359): instantiating the train dataset and reading the attribute;
`AttributeError` when `train_dataset` is `None`. -/
def trainIgnoreIndex (r : Registries) (fuel : Nat) (dic : YDict) :
    Except String YVal :=
  match trainDataset r fuel dic with
  | Except.error e => Except.error e
  | Except.ok (some o) => Except.ok (datasetIgnoreIndex o)
  | Except.ok none => Except.error "AttributeError: NoneType ignore_index"

/-- The length checks and single-type replication of `_prepare_loss`
(lines 332-345): `ValueError` when `types` or `coef` is missing, the
single type repeated `len(coef)` times when `len(types) == 1`, and
`ValueError` on any other length mismatch. -/
def replicateTypes (args : YDict) : Except String YDict :=
  if hasKey args "types" && hasKey args "coef" then
    match lookupKey args "types", lookupKey args "coef" with
    | some (YVal.list lt), some (YVal.list lc) =>
      if lt.length ≠ lc.length then
        if lt.length = 1 then
          Except.ok (setKey args "types"
            (YVal.list (List.flatten (List.replicate lc.length lt))))
        else Except.error "ValueError: types vs coef"
      else Except.ok args
    | _, _ => Except.error "TypeError: len"
  else Except.error "ValueError: missing types or coef"

/-- The `for item in args['types']` loop of `_prepare_loss`
(lines 350-360): every non-`MixedLoss` item gets the train dataset's
`ignore_index` (asserting agreement when the item already sets one) and
each item is loaded through `_load_object`.  `ignoreRes` is the lazily
forced evaluation of `self.train_dataset.ignore_index`. -/
def buildLossTypes (r : Registries) (fuel : Nat)
    (ignoreRes : Except String YVal) : List YVal → Except String (List OVal)
  | [] => Except.ok []
  | item :: rest =>
    match item with
    | YVal.dict d =>
      match lookupKey d "type" with
      | none => Except.error "KeyError: type"
      | some tv =>
        match (if yvalBeq tv (YVal.str "MixedLoss") then Except.ok d
          else
            match ignoreRes with
            | Except.error e => Except.error e
            | Except.ok iv =>
              if hasKey d "ignore_index" then
                match lookupKey d "ignore_index" with
                | some ivItem =>
                  if yvalBeq ivItem iv then Except.ok (setKey d "ignore_index" iv)
                  else Except.error "AssertionError: ignore_index"
                | none => Except.error "KeyError"
              else Except.ok (setKey d "ignore_index" iv)) with
        | Except.error e => Except.error e
        | Except.ok d2 =>
          match loadObject r fuel d2 with
          | Except.error e => Except.error e
          | Except.ok o =>
            match buildLossTypes r fuel ignoreRes rest with
            | Except.ok os => Except.ok (o :: os)
            | Except.error e => Except.error e
    | _ => Except.error "TypeError: item"

/-- Embedding of `Config._prepare_loss(loss_name)` (lines 323-367). -/
def prepareLoss (r : Registries) (fuel : Nat) (dic : YDict)
    (lossName : String) : Except String PreparedLoss :=
  match (match lookupKey dic lossName with
    | none => Except.ok ([] : YDict)
    | some (YVal.dict d) => Except.ok d
    | some _ => Except.error "AttributeError: copy") with
  | Except.error e => Except.error e
  | Except.ok args0 =>
    match replicateTypes args0 with
    | Except.error e => Except.error e
    | Except.ok args =>
      match lookupKey args "types" with
      | some (YVal.list lt) =>
        match buildLossTypes r fuel (trainIgnoreIndex r fuel dic) lt with
        | Except.error e => Except.error e
        | Except.ok types =>
          match lookupKey args "coef" with
          | some (YVal.list lc) =>
            if lc.length ≠ types.length then
              Except.error "RuntimeError: coef vs types"
            else
              Except.ok (PreparedLoss.mk types
                (args.filter (fun p => p.1 ≠ "types")))
          | _ => Except.error "TypeError: len coef"
      | _ => Except.error "TypeError: types"

/-- Embedding of the `loss` property (lines 311-315): build through
`_prepare_loss('loss')` when `self._losses is None`, cache and return. -/
def lossProp (r : Registries) (fuel : Nat) (st : ConfigState) :
    Except String (PreparedLoss × ConfigState × List String) :=
  match st.lossesCache with
  | some l => Except.ok (l, st, [])
  | none =>
    match prepareLoss r fuel st.dic "loss" with
    | Except.ok l =>
      Except.ok (l, { st with lossesCache := some l },
        (l.types.map builtNames).flatten)
    | Except.error e => Except.error e

end SegConfig

end PaddleRS

namespace PaddleRS

namespace SegConfig

theorem lookupKey_cons {α : Type} (k0 : String) (v0 : α)
    (rest : List (String × α)) (k : String) :
    lookupKey ((k0, v0) :: rest) k = if k0 == k then some v0 else lookupKey rest k := by
  cases h : k0 == k <;> simp [lookupKey, List.find?, h]

theorem hasKey_cons {α : Type} (k0 : String) (v0 : α)
    (rest : List (String × α)) (k : String) :
    hasKey ((k0, v0) :: rest) k = (k0 == k || hasKey rest k) := by
  simp [hasKey]

theorem lookupKey_eq_none_of_not_mem {α : Type} (d : List (String × α))
    (k : String) (h : k ∉ d.map Prod.fst) : lookupKey d k = none := by
  induction d with
  | nil => rfl
  | cons p rest ih =>
    obtain ⟨k0, v0⟩ := p
    rw [lookupKey_cons]
    simp only [List.map_cons, List.mem_cons, not_or] at h
    rw [if_neg (by simp; exact fun he => h.1 he.symm), ih h.2]

theorem lookupKey_mapReplace_self {α : Type} (d : List (String × α))
    (k : String) (v : α) (h : hasKey d k = true) :
    lookupKey (d.map (fun p => if p.1 == k then (k, v) else p)) k = some v := by
  induction d with
  | nil => simp [hasKey] at h
  | cons p rest ih =>
    obtain ⟨k0, v0⟩ := p
    rw [hasKey_cons] at h
    cases hp : k0 == k with
    | true =>
      simp only [List.map_cons, hp, if_pos rfl]
      rw [lookupKey_cons, if_pos (by simp)]
      simp
    | false =>
      simp only [hp, Bool.false_or] at h
      simp only [List.map_cons, hp]
      rw [if_neg (by simp), lookupKey_cons, if_neg (by simp [hp]), ih h]

theorem lookupKey_mapReplace_ne {α : Type} (d : List (String × α))
    (k : String) (v : α) (k2 : String) (h : k2 ≠ k) :
    lookupKey (d.map (fun p => if p.1 == k then (k, v) else p)) k2 = lookupKey d k2 := by
  induction d with
  | nil => rfl
  | cons p rest ih =>
    obtain ⟨k0, v0⟩ := p
    simp only [List.map_cons]
    cases hp : k0 == k with
    | true =>
      have hk0 : k0 = k := by simpa using hp
      rw [if_pos (by simp [hp]), lookupKey_cons, lookupKey_cons]
      rw [if_neg (by simp; exact fun he => h he.symm),
        if_neg (by simp [hk0]; exact fun he => h he.symm), ih]
    | false =>
      rw [if_neg (by simp [hp]), lookupKey_cons, lookupKey_cons]
      cases hq : k0 == k2 with
      | true => simp [hq]
      | false => rw [if_neg (by simp [hq]), if_neg (by simp [hq]), ih]

theorem lookupKey_append_single_self {α : Type} (d : List (String × α))
    (k : String) (v : α) (h : hasKey d k = false) :
    lookupKey (d ++ [(k, v)]) k = some v := by
  induction d with
  | nil => simp [lookupKey, List.find?]
  | cons p rest ih =>
    obtain ⟨k0, v0⟩ := p
    rw [hasKey_cons] at h
    cases hp : k0 == k with
    | true => simp [hp] at h
    | false =>
      simp only [hp, Bool.false_or] at h
      rw [List.cons_append, lookupKey_cons, if_neg (by simp [hp]), ih h]

theorem lookupKey_append_single_ne {α : Type} (d : List (String × α))
    (k : String) (v : α) (k2 : String) (h : k2 ≠ k) :
    lookupKey (d ++ [(k, v)]) k2 = lookupKey d k2 := by
  induction d with
  | nil =>
    simp only [List.nil_append, lookupKey_cons]
    rw [if_neg (by simp; exact fun he => h he.symm)]
  | cons p rest ih =>
    obtain ⟨k0, v0⟩ := p
    rw [List.cons_append, lookupKey_cons, lookupKey_cons]
    cases hq : k0 == k2 with
    | true => simp [hq]
    | false => rw [if_neg (by simp [hq]), if_neg (by simp [hq]), ih]

theorem hasKey_mapReplace_ne {α : Type} (d : List (String × α))
    (k : String) (v : α) (k2 : String) (h : k2 ≠ k) :
    hasKey (d.map (fun p => if p.1 == k then (k, v) else p)) k2 = hasKey d k2 := by
  induction d with
  | nil => rfl
  | cons p rest ih =>
    obtain ⟨k0, v0⟩ := p
    simp only [List.map_cons]
    cases hp : k0 == k with
    | true =>
      have hk0 : k0 = k := by simpa using hp
      rw [if_pos (by simp [hp]), hasKey_cons, hasKey_cons, ih]
      have h1 : (k == k2) = false := by simp; exact fun he => h he.symm
      have h2 : (k0 == k2) = false := by simp [hk0]; exact fun he => h he.symm
      rw [h1, h2]
    | false =>
      rw [if_neg (by simp [hp]), hasKey_cons, hasKey_cons, ih]

theorem hasKey_append_single_ne {α : Type} (d : List (String × α))
    (k : String) (v : α) (k2 : String) (h : k2 ≠ k) :
    hasKey (d ++ [(k, v)]) k2 = hasKey d k2 := by
  induction d with
  | nil =>
    simp only [List.nil_append, hasKey_cons]
    rw [show (k == k2) = false by simp; exact fun he => h he.symm]
    rfl
  | cons p rest ih =>
    obtain ⟨k0, v0⟩ := p
    rw [List.cons_append, hasKey_cons, hasKey_cons, ih]

theorem lookupKey_setKey_self {α : Type} (d : List (String × α))
    (k : String) (v : α) : lookupKey (setKey d k v) k = some v := by
  unfold setKey
  cases hh : hasKey d k with
  | true => simp only [hh, if_pos rfl]; exact lookupKey_mapReplace_self d k v hh
  | false => simp only [hh, Bool.false_eq_true, if_false]; exact lookupKey_append_single_self d k v hh

theorem lookupKey_setKey_ne {α : Type} (d : List (String × α))
    (k : String) (v : α) (k2 : String) (h : k2 ≠ k) :
    lookupKey (setKey d k v) k2 = lookupKey d k2 := by
  unfold setKey
  cases hh : hasKey d k with
  | true => simp only [hh, if_pos rfl]; exact lookupKey_mapReplace_ne d k v k2 h
  | false => simp only [hh, Bool.false_eq_true, if_false]; exact lookupKey_append_single_ne d k v k2 h

theorem hasKey_setKey_ne {α : Type} (d : List (String × α))
    (k : String) (v : α) (k2 : String) (h : k2 ≠ k) :
    hasKey (setKey d k v) k2 = hasKey d k2 := by
  unfold setKey
  cases hh : hasKey d k with
  | true => simp only [hh, if_pos rfl]; exact hasKey_mapReplace_ne d k v k2 h
  | false => simp only [hh, Bool.false_eq_true, if_false]; exact hasKey_append_single_ne d k v k2 h

end SegConfig

end PaddleRS

namespace PaddleRS

namespace SegConfig

/-- C5: `_load_component` searches MODELS, BACKBONES, DATASETS,
TRANSFORMS, LOSSES in that fixed order, returns the constructor from the
first registry containing the name, and raises `RuntimeError` when none
does (`config.py`, lines 408-419). -/
theorem c5_load_component_order (r : Registries) (name : String) :
    (r.MODELS.contains name = true →
      loadComponent r name = Except.ok (0, name)) ∧
    (r.MODELS.contains name = false → r.BACKBONES.contains name = true →
      loadComponent r name = Except.ok (1, name)) ∧
    (r.MODELS.contains name = false → r.BACKBONES.contains name = false →
      r.DATASETS.contains name = true →
      loadComponent r name = Except.ok (2, name)) ∧
    (r.MODELS.contains name = false → r.BACKBONES.contains name = false →
      r.DATASETS.contains name = false → r.TRANSFORMS.contains name = true →
      loadComponent r name = Except.ok (3, name)) ∧
    (r.MODELS.contains name = false → r.BACKBONES.contains name = false →
      r.DATASETS.contains name = false → r.TRANSFORMS.contains name = false →
      r.LOSSES.contains name = true →
      loadComponent r name = Except.ok (4, name)) ∧
    (r.MODELS.contains name = false → r.BACKBONES.contains name = false →
      r.DATASETS.contains name = false → r.TRANSFORMS.contains name = false →
      r.LOSSES.contains name = false →
      loadComponent r name = Except.error "RuntimeError: component not found") := by
  refine ⟨fun h1 => ?_, fun h1 h2 => ?_, fun h1 h2 h3 => ?_,
    fun h1 h2 h3 h4 => ?_, fun h1 h2 h3 h4 h5 => ?_, fun h1 h2 h3 h4 h5 => ?_⟩ <;>
    simp_all [loadComponent, comList, loadComponentLoop]

/-- A concrete registry set; note `"FCN"` registered both as a model and
as a loss, resolved to the model by the search order. -/
def regsEx : Registries :=
  { MODELS := ["FCN", "PSPNet"], BACKBONES := ["HRNet18"],
    DATASETS := ["Dataset", "Cityscapes"], TRANSFORMS := ["Resize"],
    LOSSES := ["CrossEntropyLoss", "FCN"] }

theorem c5_load_component_order_witness :
    loadComponent regsEx "FCN" = Except.ok (0, "FCN") ∧
    loadComponent regsEx "Cityscapes" = Except.ok (2, "Cityscapes") ∧
    loadComponent regsEx "CrossEntropyLoss" = Except.ok (4, "CrossEntropyLoss") ∧
    loadComponent regsEx "Missing" = Except.error "RuntimeError: component not found" :=
  ⟨(c5_load_component_order regsEx "FCN").1 rfl,
    (c5_load_component_order regsEx "Cityscapes").2.2.1 rfl rfl rfl,
    (c5_load_component_order regsEx "CrossEntropyLoss").2.2.2.2.1 rfl rfl rfl rfl rfl,
    (c5_load_component_order regsEx "Missing").2.2.2.2.2 rfl rfl rfl rfl rfl⟩

end SegConfig

end PaddleRS

namespace PaddleRS

namespace SegConfig

theorem updateEntries_cons_eq (fuel : Nat) (k0 : String) (v : YVal)
    (rest acc : YDict) :
    updateEntries fuel ((k0, v) :: rest) acc =
      match v with
      | YVal.dict d =>
        if hasKey acc k0 then
          match lookupKey acc k0 with
          | some bv =>
            match updateDic fuel d bv with
            | Except.ok merged => updateEntries fuel rest (setKey acc k0 merged)
            | Except.error e => Except.error e
          | none => Except.error "KeyError"
        else updateEntries fuel rest (setKey acc k0 (YVal.dict d))
      | v => updateEntries fuel rest (setKey acc k0 v) := by
  cases v <;> simp [updateEntries]

theorem updateEntries_lookup_none (fuel : Nat) (entries : YDict) :
    ∀ (acc res : YDict) (k : String),
    updateEntries fuel entries acc = Except.ok res →
    lookupKey entries k = none →
    lookupKey res k = lookupKey acc k := by
  induction entries with
  | nil =>
    intro acc res k h _
    simp only [updateEntries, Except.ok.injEq] at h
    rw [← h]
  | cons p rest ih =>
    intro acc res k h hk
    obtain ⟨k0, v0⟩ := p
    rw [lookupKey_cons] at hk
    have hk0 : (k0 == k) = false := by
      cases hq : k0 == k
      · rfl
      · rw [hq] at hk; simp at hk
    rw [if_neg (by simp [hk0])] at hk
    have hne : k ≠ k0 := fun he => by simp [he] at hk0
    rw [updateEntries_cons_eq] at h
    cases v0 with
    | dict d =>
      cases hhk : hasKey acc k0 with
      | true =>
        cases hbv : lookupKey acc k0 with
        | none => simp [hhk, hbv] at h
        | some bv =>
          cases hud : updateDic fuel d bv with
          | error e => simp [hhk, hbv, hud] at h
          | ok merged =>
            simp only [hhk, hbv, hud, if_true, eq_self_iff_true] at h
            rw [ih _ _ _ h hk, lookupKey_setKey_ne _ _ _ _ hne]
      | false =>
        simp only [hhk, Bool.false_eq_true, if_false] at h
        rw [ih _ _ _ h hk, lookupKey_setKey_ne _ _ _ _ hne]
    | null =>
      rw [ih _ _ _ h hk, lookupKey_setKey_ne _ _ _ _ hne]
    | bool b =>
      rw [ih _ _ _ h hk, lookupKey_setKey_ne _ _ _ _ hne]
    | int n =>
      rw [ih _ _ _ h hk, lookupKey_setKey_ne _ _ _ _ hne]
    | str s =>
      rw [ih _ _ _ h hk, lookupKey_setKey_ne _ _ _ _ hne]
    | list l =>
      rw [ih _ _ _ h hk, lookupKey_setKey_ne _ _ _ _ hne]

end SegConfig

end PaddleRS

namespace PaddleRS

namespace SegConfig

theorem updateEntries_lookup_override (fuel : Nat) (entries : YDict) :
    ∀ (acc res : YDict) (k : String) (v : YVal),
    updateEntries fuel entries acc = Except.ok res →
    (entries.map Prod.fst).Nodup →
    lookupKey entries k = some v →
    ((∀ d2, v ≠ YVal.dict d2) ∨ hasKey acc k = false) →
    lookupKey res k = some v := by
  induction entries with
  | nil => intro acc res k v h hnd hk hcase; simp [lookupKey, List.find?] at hk
  | cons p rest ih =>
    intro acc res k v h hnd hk hcase
    obtain ⟨k0, v0⟩ := p
    simp only [List.map_cons, List.nodup_cons] at hnd
    obtain ⟨hk0nm, hndr⟩ := hnd
    rw [lookupKey_cons] at hk
    rw [updateEntries_cons_eq] at h
    cases hq : k0 == k with
    | false =>
      rw [if_neg (by simp [hq])] at hk
      have hne : k ≠ k0 := fun he => by simp [he] at hq
      cases v0 with
      | dict d =>
        cases hhk : hasKey acc k0 with
        | true =>
          cases hbv : lookupKey acc k0 with
          | none => simp [hhk, hbv] at h
          | some bv =>
            cases hud : updateDic fuel d bv with
            | error e => simp [hhk, hbv, hud] at h
            | ok merged =>
              simp only [hhk, hbv, hud, if_true, eq_self_iff_true] at h
              exact ih _ _ _ _ h hndr hk
                (hcase.imp id (fun hf => by rw [hasKey_setKey_ne _ _ _ _ hne]; exact hf))
        | false =>
          simp only [hhk, Bool.false_eq_true, if_false] at h
          exact ih _ _ _ _ h hndr hk
            (hcase.imp id (fun hf => by rw [hasKey_setKey_ne _ _ _ _ hne]; exact hf))
      | null =>
        exact ih _ _ _ _ h hndr hk
          (hcase.imp id (fun hf => by rw [hasKey_setKey_ne _ _ _ _ hne]; exact hf))
      | bool b =>
        exact ih _ _ _ _ h hndr hk
          (hcase.imp id (fun hf => by rw [hasKey_setKey_ne _ _ _ _ hne]; exact hf))
      | int n =>
        exact ih _ _ _ _ h hndr hk
          (hcase.imp id (fun hf => by rw [hasKey_setKey_ne _ _ _ _ hne]; exact hf))
      | str s =>
        exact ih _ _ _ _ h hndr hk
          (hcase.imp id (fun hf => by rw [hasKey_setKey_ne _ _ _ _ hne]; exact hf))
      | list l =>
        exact ih _ _ _ _ h hndr hk
          (hcase.imp id (fun hf => by rw [hasKey_setKey_ne _ _ _ _ hne]; exact hf))
    | true =>
      rw [if_pos hq] at hk
      have hkk0 : k0 = k := by simpa using hq
      rw [Option.some.injEq] at hk
      subst hk
      subst hkk0
      have hrest : lookupKey rest k0 = none :=
        lookupKey_eq_none_of_not_mem rest k0 hk0nm
      cases v0 with
      | dict d =>
        cases hcase with
        | inl hnotd => exact absurd rfl (hnotd d)
        | inr hf =>
          simp only [hf, Bool.false_eq_true, if_false] at h
          rw [updateEntries_lookup_none fuel rest _ _ _ h hrest,
            lookupKey_setKey_self]
      | null =>
        rw [updateEntries_lookup_none fuel rest _ _ _ h hrest,
          lookupKey_setKey_self]
      | bool b =>
        rw [updateEntries_lookup_none fuel rest _ _ _ h hrest,
          lookupKey_setKey_self]
      | int n =>
        rw [updateEntries_lookup_none fuel rest _ _ _ h hrest,
          lookupKey_setKey_self]
      | str s =>
        rw [updateEntries_lookup_none fuel rest _ _ _ h hrest,
          lookupKey_setKey_self]
      | list l =>
        rw [updateEntries_lookup_none fuel rest _ _ _ h hrest,
          lookupKey_setKey_self]

theorem updateEntries_lookup_merge (fuel : Nat) (entries : YDict) :
    ∀ (acc res : YDict) (k : String) (d : YDict),
    updateEntries fuel entries acc = Except.ok res →
    (entries.map Prod.fst).Nodup →
    lookupKey entries k = some (YVal.dict d) →
    hasKey acc k = true →
    ∃ bv merged, lookupKey acc k = some bv ∧
      updateDic fuel d bv = Except.ok merged ∧ lookupKey res k = some merged := by
  induction entries with
  | nil => intro acc res k d h hnd hk hacc; simp [lookupKey, List.find?] at hk
  | cons p rest ih =>
    intro acc res k d h hnd hk hacc
    obtain ⟨k0, v0⟩ := p
    simp only [List.map_cons, List.nodup_cons] at hnd
    obtain ⟨hk0nm, hndr⟩ := hnd
    rw [lookupKey_cons] at hk
    rw [updateEntries_cons_eq] at h
    cases hq : k0 == k with
    | false =>
      rw [if_neg (by simp [hq])] at hk
      have hne : k ≠ k0 := fun he => by simp [he] at hq
      cases v0 with
      | dict d0 =>
        cases hhk : hasKey acc k0 with
        | true =>
          cases hbv : lookupKey acc k0 with
          | none => simp [hhk, hbv] at h
          | some bv0 =>
            cases hud : updateDic fuel d0 bv0 with
            | error e => simp [hhk, hbv, hud] at h
            | ok merged0 =>
              simp only [hhk, hbv, hud, if_true, eq_self_iff_true] at h
              obtain ⟨bv, merged, h1, h2, h3⟩ := ih _ _ _ _ h hndr hk
                (by rw [hasKey_setKey_ne _ _ _ _ hne]; exact hacc)
              exact ⟨bv, merged, by rw [← lookupKey_setKey_ne acc k0 merged0 k hne]; exact h1,
                h2, h3⟩
        | false =>
          simp only [hhk, Bool.false_eq_true, if_false] at h
          obtain ⟨bv, merged, h1, h2, h3⟩ := ih _ _ _ _ h hndr hk
            (by rw [hasKey_setKey_ne _ _ _ _ hne]; exact hacc)
          exact ⟨bv, merged,
            by rw [← lookupKey_setKey_ne acc k0 (YVal.dict d0) k hne]; exact h1, h2, h3⟩
      | null =>
        obtain ⟨bv, merged, h1, h2, h3⟩ := ih _ _ _ _ h hndr hk
          (by rw [hasKey_setKey_ne _ _ _ _ hne]; exact hacc)
        exact ⟨bv, merged,
          by rw [← lookupKey_setKey_ne acc k0 YVal.null k hne]; exact h1, h2, h3⟩
      | bool b =>
        obtain ⟨bv, merged, h1, h2, h3⟩ := ih _ _ _ _ h hndr hk
          (by rw [hasKey_setKey_ne _ _ _ _ hne]; exact hacc)
        exact ⟨bv, merged,
          by rw [← lookupKey_setKey_ne acc k0 (YVal.bool b) k hne]; exact h1, h2, h3⟩
      | int n =>
        obtain ⟨bv, merged, h1, h2, h3⟩ := ih _ _ _ _ h hndr hk
          (by rw [hasKey_setKey_ne _ _ _ _ hne]; exact hacc)
        exact ⟨bv, merged,
          by rw [← lookupKey_setKey_ne acc k0 (YVal.int n) k hne]; exact h1, h2, h3⟩
      | str s =>
        obtain ⟨bv, merged, h1, h2, h3⟩ := ih _ _ _ _ h hndr hk
          (by rw [hasKey_setKey_ne _ _ _ _ hne]; exact hacc)
        exact ⟨bv, merged,
          by rw [← lookupKey_setKey_ne acc k0 (YVal.str s) k hne]; exact h1, h2, h3⟩
      | list l =>
        obtain ⟨bv, merged, h1, h2, h3⟩ := ih _ _ _ _ h hndr hk
          (by rw [hasKey_setKey_ne _ _ _ _ hne]; exact hacc)
        exact ⟨bv, merged,
          by rw [← lookupKey_setKey_ne acc k0 (YVal.list l) k hne]; exact h1, h2, h3⟩
    | true =>
      rw [if_pos hq] at hk
      have hkk0 : k0 = k := by simpa using hq
      subst hkk0
      rw [Option.some.injEq] at hk
      have hv0 : v0 = YVal.dict d := hk
      subst hv0
      have hrest : lookupKey rest k0 = none :=
        lookupKey_eq_none_of_not_mem rest k0 hk0nm
      cases hbv : lookupKey acc k0 with
      | none => simp [hacc, hbv] at h
      | some bv =>
        cases hud : updateDic fuel d bv with
        | error e => simp [hacc, hbv, hud] at h
        | ok merged =>
          simp only [hacc, hbv, hud, if_true, eq_self_iff_true] at h
          exact ⟨bv, merged, rfl, hud,
            by rw [updateEntries_lookup_none fuel rest _ _ _ h hrest,
              lookupKey_setKey_self]⟩

end SegConfig

end PaddleRS

namespace PaddleRS

namespace SegConfig

theorem c2_base_merge (fs : FileSys) (f : Nat) (path : Path) (dic : YDict)
    (bp : String) (r : YDict)
    (hfile : lookupPath fs path = some dic)
    (hbase : lookupKey dic "_base_" = some (YVal.str bp))
    (hok : parseFromYaml fs (f + 2) path = Except.ok r) :
    ∃ baseDic,
      parseFromYaml fs (f + 1) (path.dropLast ++ splitSlash bp) = Except.ok baseDic ∧
      updateDic (f + 1) (eraseKey dic "_base_") (YVal.dict baseDic)
        = Except.ok (YVal.dict r) ∧
      (pyIsFalseGet (lookupKey (eraseKey dic "_base_") "_inherited_") = true →
        r = eraseKey (eraseKey dic "_base_") "_inherited_") ∧
      (pyIsFalseGet (lookupKey (eraseKey dic "_base_") "_inherited_") = false →
        (∀ k, lookupKey (eraseKey dic "_base_") k = none →
          lookupKey r k = lookupKey baseDic k) ∧
        (((eraseKey dic "_base_").map Prod.fst).Nodup →
          (∀ k v, lookupKey (eraseKey dic "_base_") k = some v →
            ((∀ d2, v ≠ YVal.dict d2) ∨ hasKey baseDic k = false) →
            lookupKey r k = some v) ∧
          (∀ k d2, lookupKey (eraseKey dic "_base_") k = some (YVal.dict d2) →
            hasKey baseDic k = true →
            ∃ bv merged, lookupKey baseDic k = some bv ∧
              updateDic f d2 bv = Except.ok merged ∧
              lookupKey r k = some merged))) ∧
      (∀ (g : Nat) (child bd : YDict),
        pyIsFalseGet (lookupKey child "_inherited_") = true →
        updateDic (g + 1) child (YVal.dict bd)
          = Except.ok (YVal.dict (eraseKey child "_inherited_"))) := by
  have hstep : parseFromYaml fs (f + 2) path =
      match lookupKey dic "_base_" with
      | none => Except.ok dic
      | some (YVal.str bp2) =>
        match parseFromYaml fs (f + 1) (path.dropLast ++ splitSlash bp2) with
        | Except.ok baseDic =>
          match updateDic (f + 1) (eraseKey dic "_base_") (YVal.dict baseDic) with
          | Except.ok (YVal.dict r2) => Except.ok r2
          | Except.ok _ => Except.error "TypeError"
          | Except.error e => Except.error e
        | Except.error e => Except.error e
      | some _ => Except.error "TypeError: join" := by
    show (match lookupPath fs path with
      | none => Except.error "FileNotFoundError"
      | some dic2 =>
        match lookupKey dic2 "_base_" with
        | none => Except.ok dic2
        | some (YVal.str bp2) =>
          match parseFromYaml fs (f + 1) (path.dropLast ++ splitSlash bp2) with
          | Except.ok baseDic =>
            match updateDic (f + 1) (eraseKey dic2 "_base_") (YVal.dict baseDic) with
            | Except.ok (YVal.dict r2) => Except.ok r2
            | Except.ok _ => Except.error "TypeError"
            | Except.error e => Except.error e
          | Except.error e => Except.error e
        | some _ => Except.error "TypeError: join") = _
    rw [hfile]
  rw [hstep, hbase] at hok
  replace hok : (match parseFromYaml fs (f + 1) (path.dropLast ++ splitSlash bp) with
    | Except.ok baseDic =>
      match updateDic (f + 1) (eraseKey dic "_base_") (YVal.dict baseDic) with
      | Except.ok (YVal.dict r2) => Except.ok r2
      | Except.ok _ => Except.error "TypeError"
      | Except.error e => Except.error e
    | Except.error e => Except.error e) = Except.ok r := hok
  cases hbp : parseFromYaml fs (f + 1) (path.dropLast ++ splitSlash bp) with
  | error e => rw [hbp] at hok; exact absurd hok (by simp)
  | ok baseDic =>
    rw [hbp] at hok
    replace hok : (match updateDic (f + 1) (eraseKey dic "_base_") (YVal.dict baseDic) with
      | Except.ok (YVal.dict r2) => Except.ok r2
      | Except.ok _ => Except.error "TypeError"
      | Except.error e => Except.error e) = Except.ok r := hok
    cases hud : updateDic (f + 1) (eraseKey dic "_base_") (YVal.dict baseDic) with
    | error e => rw [hud] at hok; exact absurd hok (by simp)
    | ok v =>
      rw [hud] at hok
      cases v with
      | dict r0 =>
        simp only [Except.ok.injEq] at hok
        subst hok
        refine ⟨baseDic, rfl, hud, ?_, ?_, ?_⟩
        · intro hinh
          simp only [updateDic, hinh, if_true, eq_self_iff_true,
            Except.ok.injEq, YVal.dict.injEq] at hud
          exact hud.symm
        · intro hinh
          have hue : updateEntries f (eraseKey dic "_base_") baseDic
              = Except.ok r0 := by
            simp only [updateDic, hinh, Bool.false_eq_true, if_false] at hud
            cases hue0 : updateEntries f (eraseKey dic "_base_") baseDic with
            | error e => rw [hue0] at hud; exact absurd hud (by simp)
            | ok rr =>
              rw [hue0] at hud
              simp only [Except.ok.injEq, YVal.dict.injEq] at hud
              rw [hud]
          refine ⟨?_, ?_⟩
          · intro k hk
            exact updateEntries_lookup_none f _ _ _ _ hue hk
          · intro hnd
            exact ⟨fun k v hk hcase =>
              updateEntries_lookup_override f _ _ _ _ _ hue hnd hk hcase,
              fun k d2 hk hacc =>
              updateEntries_lookup_merge f _ _ _ _ _ hue hnd hk hacc⟩
        · intro g child bd hinh
          simp only [updateDic, hinh, if_true, eq_self_iff_true]
      | null => exact absurd hok (by simp)
      | bool b => exact absurd hok (by simp)
      | int n => exact absurd hok (by simp)
      | str s => exact absurd hok (by simp)
      | list l => exact absurd hok (by simp)

end SegConfig

end PaddleRS

namespace PaddleRS

namespace SegConfig

/-- A child config with `_base_`, an overriding scalar, a recursively
merged sub-dict and an `_inherited_: False` sub-sub-dict. -/
def childEx : YDict :=
  [("_base_", YVal.str "base.yml"),
    ("model", YVal.dict [("type", YVal.str "PSPNet"),
      ("extra", YVal.dict [("_inherited_", YVal.bool false), ("a", YVal.int 1)])]),
    ("iters", YVal.int 10)]

def baseEx : YDict :=
  [("model", YVal.dict [("type", YVal.str "FCN"),
      ("backbone", YVal.dict [("type", YVal.str "HRNet18"),
        ("pretrained", YVal.str "x")])]),
    ("batch_size", YVal.int 2), ("keep", YVal.int 7)]

def fsEx : FileSys :=
  [(["configs", "base.yml"], baseEx), (["configs", "cfg.yml"], childEx)]

def mergedEx : YDict :=
  [("model", YVal.dict [("type", YVal.str "PSPNet"),
      ("backbone", YVal.dict [("type", YVal.str "HRNet18"),
        ("pretrained", YVal.str "x")]),
      ("extra", YVal.dict [("_inherited_", YVal.bool false), ("a", YVal.int 1)])]),
    ("batch_size", YVal.int 2), ("keep", YVal.int 7), ("iters", YVal.int 10)]

theorem c2_base_merge_witness :
    ∃ baseDic,
      parseFromYaml fsEx 9 ((["configs", "cfg.yml"] : Path).dropLast
        ++ splitSlash "base.yml") = Except.ok baseDic ∧
      updateDic 9 (eraseKey childEx "_base_") (YVal.dict baseDic)
        = Except.ok (YVal.dict mergedEx) ∧
      (pyIsFalseGet (lookupKey (eraseKey childEx "_base_") "_inherited_") = true →
        mergedEx = eraseKey (eraseKey childEx "_base_") "_inherited_") ∧
      (pyIsFalseGet (lookupKey (eraseKey childEx "_base_") "_inherited_") = false →
        (∀ k, lookupKey (eraseKey childEx "_base_") k = none →
          lookupKey mergedEx k = lookupKey baseDic k) ∧
        (((eraseKey childEx "_base_").map Prod.fst).Nodup →
          (∀ k v, lookupKey (eraseKey childEx "_base_") k = some v →
            ((∀ d2, v ≠ YVal.dict d2) ∨ hasKey baseDic k = false) →
            lookupKey mergedEx k = some v) ∧
          (∀ k d2, lookupKey (eraseKey childEx "_base_") k = some (YVal.dict d2) →
            hasKey baseDic k = true →
            ∃ bv merged, lookupKey baseDic k = some bv ∧
              updateDic 8 d2 bv = Except.ok merged ∧
              lookupKey mergedEx k = some merged))) ∧
      (∀ (g : Nat) (child bd : YDict),
        pyIsFalseGet (lookupKey child "_inherited_") = true →
        updateDic (g + 1) child (YVal.dict bd)
          = Except.ok (YVal.dict (eraseKey child "_inherited_"))) :=
  c2_base_merge fsEx 8 ["configs", "cfg.yml"] childEx "base.yml" mergedEx rfl rfl
    (by simp [parseFromYaml, fsEx, childEx, baseEx, mergedEx, lookupPath, lookupKey,
      hasKey, setKey, eraseKey, updateDic, updateEntries, pyIsFalseGet, splitSlash,
      List.find?, List.splitOn, List.splitOnP, List.splitOnP.go])

end SegConfig

end PaddleRS

namespace PaddleRS

namespace SegConfig

theorem lookupKey_eq_none_of_hasKey_false {α : Type} (d : List (String × α))
    (k : String) (h : hasKey d k = false) : lookupKey d k = none := by
  induction d with
  | nil => rfl
  | cons p rest ih =>
    obtain ⟨k0, v0⟩ := p
    rw [hasKey_cons] at h
    cases hp : k0 == k with
    | true => simp [hp] at h
    | false =>
      simp only [hp, Bool.false_or] at h
      rw [lookupKey_cons, if_neg (by simp [hp]), ih h]

theorem loadComponentLoop_ok_shape (name : String) :
    ∀ (regs : List (List String)) (j : Nat) (c : Nat × String),
    loadComponentLoop name j regs = Except.ok c → c.2 = name := by
  intro regs
  induction regs with
  | nil => intro j c h; exact absurd h (by simp [loadComponentLoop])
  | cons reg rest ih =>
    intro j c h
    rw [loadComponentLoop] at h
    by_cases hc : reg.contains name
    · rw [if_pos hc, Except.ok.injEq] at h
      rw [← h]
    · rw [if_neg hc] at h
      exact ih _ _ h

/-- The relation between a list item of a `_load_object` keyword value and
what the list comprehension at lines 433-436 turns it into: meta-type
dicts are loaded, everything else is kept verbatim. -/
def itemRel (r : Registries) (fuel : Nat) : YVal → OVal → Prop := fun it ov =>
  match it with
  | YVal.dict d =>
    if hasKey d "type" then loadObject r fuel d = Except.ok ov
    else ov = OVal.raw (YVal.dict d)
  | it => ov = OVal.raw it

/-- The relation between a `cfg` entry value and the keyword argument
`_load_object` builds from it (lines 429-438): meta-type dicts are loaded
recursively, lists are rebuilt with their meta-type items loaded, and
every other value is passed verbatim. -/
def paramRel (r : Registries) (fuel : Nat) : YVal → OVal → Prop := fun v pv =>
  match v with
  | YVal.dict d =>
    if hasKey d "type" then loadObject r fuel d = Except.ok pv
    else pv = OVal.raw (YVal.dict d)
  | YVal.list items => ∃ ovs, buildItems r fuel items = Except.ok ovs ∧
      pv = OVal.listV ovs ∧ List.Forall₂ (itemRel r fuel) items ovs
  | v => pv = OVal.raw v

theorem buildItems_forall2 (r : Registries) (fuel : Nat) :
    ∀ (items : List YVal) (ovs : List OVal),
    buildItems r fuel items = Except.ok ovs →
    List.Forall₂ (itemRel r fuel) items ovs := by
  intro items
  induction items with
  | nil =>
    intro ovs h
    simp only [buildItems, Except.ok.injEq] at h
    rw [← h]
    exact List.Forall₂.nil
  | cons it rest ih =>
    intro ovs h
    cases it with
    | dict d =>
      rw [buildItems] at h
      cases hload : (if hasKey d "type" then loadObject r fuel d
          else Except.ok (OVal.raw (YVal.dict d))) with
      | error e => rw [hload] at h; exact absurd h (by simp)
      | ok ov =>
        rw [hload] at h
        cases hrest : buildItems r fuel rest with
        | error e => rw [hrest] at h; exact absurd h (by simp)
        | ok ovs0 =>
          rw [hrest, Except.ok.injEq] at h
          rw [← h]
          refine List.Forall₂.cons ?_ (ih _ hrest)
          show (if hasKey d "type" then loadObject r fuel d = Except.ok ov
            else ov = OVal.raw (YVal.dict d))
          by_cases hk : hasKey d "type"
          · rw [if_pos hk]
            rw [if_pos hk] at hload
            exact hload
          · rw [if_neg hk]
            rw [if_neg hk, Except.ok.injEq] at hload
            rw [hload]
    | null =>
      rw [buildItems] at h
      cases hrest : buildItems r fuel rest with
      | error e => rw [hrest] at h; exact absurd h (by simp)
      | ok ovs0 =>
        rw [hrest, Except.ok.injEq] at h
        rw [← h]
        refine List.Forall₂.cons ?_ (ih _ hrest)
        show (OVal.raw YVal.null : OVal) = OVal.raw YVal.null
        rfl
      all_goals (intro _ hx; exact YVal.noConfusion hx)
    | bool b =>
      rw [buildItems] at h
      cases hrest : buildItems r fuel rest with
      | error e => rw [hrest] at h; exact absurd h (by simp)
      | ok ovs0 =>
        rw [hrest, Except.ok.injEq] at h
        rw [← h]
        refine List.Forall₂.cons ?_ (ih _ hrest)
        show (OVal.raw (YVal.bool b) : OVal) = OVal.raw (YVal.bool b)
        rfl
      all_goals (intro _ hx; exact YVal.noConfusion hx)
    | int n =>
      rw [buildItems] at h
      cases hrest : buildItems r fuel rest with
      | error e => rw [hrest] at h; exact absurd h (by simp)
      | ok ovs0 =>
        rw [hrest, Except.ok.injEq] at h
        rw [← h]
        refine List.Forall₂.cons ?_ (ih _ hrest)
        show (OVal.raw (YVal.int n) : OVal) = OVal.raw (YVal.int n)
        rfl
      all_goals (intro _ hx; exact YVal.noConfusion hx)
    | str s =>
      rw [buildItems] at h
      cases hrest : buildItems r fuel rest with
      | error e => rw [hrest] at h; exact absurd h (by simp)
      | ok ovs0 =>
        rw [hrest, Except.ok.injEq] at h
        rw [← h]
        refine List.Forall₂.cons ?_ (ih _ hrest)
        show (OVal.raw (YVal.str s) : OVal) = OVal.raw (YVal.str s)
        rfl
      all_goals (intro _ hx; exact YVal.noConfusion hx)
    | list l =>
      rw [buildItems] at h
      cases hrest : buildItems r fuel rest with
      | error e => rw [hrest] at h; exact absurd h (by simp)
      | ok ovs0 =>
        rw [hrest, Except.ok.injEq] at h
        rw [← h]
        refine List.Forall₂.cons ?_ (ih _ hrest)
        show (OVal.raw (YVal.list l) : OVal) = OVal.raw (YVal.list l)
        rfl
      all_goals (intro _ hx; exact YVal.noConfusion hx)

theorem buildParamVal_rel (r : Registries) (fuel : Nat) (v : YVal) (pv : OVal)
    (h : buildParamVal r fuel v = Except.ok pv) : paramRel r fuel v pv := by
  cases v with
  | dict d =>
    rw [buildParamVal] at h
    show (if hasKey d "type" then loadObject r fuel d = Except.ok pv
      else pv = OVal.raw (YVal.dict d))
    by_cases hk : hasKey d "type"
    · rw [if_pos hk] at h
      rw [if_pos hk]
      exact h
    · rw [if_neg hk, Except.ok.injEq] at h
      rw [if_neg hk, ← h]
  | list items =>
    rw [buildParamVal] at h
    show ∃ ovs, buildItems r fuel items = Except.ok ovs ∧
      pv = OVal.listV ovs ∧ List.Forall₂ (itemRel r fuel) items ovs
    cases hb : buildItems r fuel items with
    | error e => rw [hb] at h; exact absurd h (by simp)
    | ok ovs =>
      rw [hb, Except.ok.injEq] at h
      exact ⟨ovs, rfl, h.symm, buildItems_forall2 r fuel items ovs hb⟩
  | null =>
    rw [buildParamVal, Except.ok.injEq] at h
    show pv = OVal.raw YVal.null
    rw [← h]
    all_goals (intro _ hx; exact YVal.noConfusion hx)
  | bool b =>
    rw [buildParamVal, Except.ok.injEq] at h
    show pv = OVal.raw (YVal.bool b)
    rw [← h]
    all_goals (intro _ hx; exact YVal.noConfusion hx)
  | int n =>
    rw [buildParamVal, Except.ok.injEq] at h
    show pv = OVal.raw (YVal.int n)
    rw [← h]
    all_goals (intro _ hx; exact YVal.noConfusion hx)
  | str s =>
    rw [buildParamVal, Except.ok.injEq] at h
    show pv = OVal.raw (YVal.str s)
    rw [← h]
    all_goals (intro _ hx; exact YVal.noConfusion hx)

theorem buildParams_forall2 (r : Registries) (fuel : Nat) :
    ∀ (entries : YDict) (ps : List (String × OVal)),
    buildParams r fuel entries = Except.ok ps →
    List.Forall₂ (fun e p => e.1 = p.1 ∧ paramRel r fuel e.2 p.2) entries ps := by
  intro entries
  induction entries with
  | nil =>
    intro ps h
    simp only [buildParams, Except.ok.injEq] at h
    rw [← h]
    exact List.Forall₂.nil
  | cons e rest ih =>
    intro ps h
    obtain ⟨k, v⟩ := e
    rw [buildParams] at h
    cases hpv : buildParamVal r fuel v with
    | error er => rw [hpv] at h; exact absurd h (by simp)
    | ok pv =>
      rw [hpv] at h
      cases hrest : buildParams r fuel rest with
      | error er => rw [hrest] at h; exact absurd h (by simp)
      | ok ps0 =>
        rw [hrest, Except.ok.injEq] at h
        rw [← h]
        exact List.Forall₂.cons ⟨rfl, buildParamVal_rel r fuel v pv hpv⟩ (ih _ hrest)

end SegConfig

end PaddleRS

namespace PaddleRS

namespace SegConfig

/-- The caller-visible dict after a `_load_object(cfg)` call: the function
first copies the dict (`cfg = cfg.copy()`, line 422) and pops `'type'`
only from the copy, so the caller's dict is left unmodified. -/
def loadObjectCallerDict (cfg : YDict) : YDict := cfg

/-- C6: `_load_object` raises `RuntimeError` when `cfg` has no `'type'`
key; otherwise it resolves the constructor named by `'type'` through the
registry, builds the remaining entries into keyword arguments --
recursively instantiating dict values carrying a `'type'` key, also inside
list values, and passing everything else verbatim -- and applies the
constructor; the caller's dict is untouched since only a copy is mutated
(`config.py`, lines 421-440, 455-456). -/
theorem c6_load_object (r : Registries) (fuel : Nat) (cfg : YDict) (o : OVal) :
    (hasKey cfg "type" = false →
      loadObject r (fuel + 1) cfg = Except.error "RuntimeError: no type") ∧
    (loadObject r (fuel + 1) cfg = Except.ok o →
      ∃ s i params, lookupKey cfg "type" = some (YVal.str s) ∧
        loadComponent r s = Except.ok (i, s) ∧
        buildParams r fuel (eraseKey cfg "type") = Except.ok params ∧
        o = OVal.obj i s params ∧
        List.Forall₂ (fun e p => e.1 = p.1 ∧ paramRel r fuel e.2 p.2)
          (eraseKey cfg "type") params) ∧
    loadObjectCallerDict cfg = cfg := by
  refine ⟨?_, ?_, rfl⟩
  · intro hk
    rw [loadObject, lookupKey_eq_none_of_hasKey_false cfg "type" hk]
  · intro h
    rw [loadObject] at h
    cases htv : lookupKey cfg "type" with
    | none => rw [htv] at h; exact absurd h (by simp)
    | some tv =>
      rw [htv] at h
      cases tv with
      | str s =>
        replace h : (match loadComponent r s with
          | Except.ok comp =>
            match buildParams r fuel (eraseKey cfg "type") with
            | Except.ok params => Except.ok (OVal.obj comp.1 comp.2 params)
            | Except.error e => Except.error e
          | Except.error e => Except.error e) = Except.ok o := h
        cases hcomp : loadComponent r s with
        | error e => rw [hcomp] at h; exact absurd h (by simp)
        | ok comp =>
          rw [hcomp] at h
          cases hps : buildParams r fuel (eraseKey cfg "type") with
          | error e => rw [hps] at h; exact absurd h (by simp)
          | ok params =>
            rw [hps, Except.ok.injEq] at h
            obtain ⟨i0, s2⟩ := comp
            have hshape : s2 = s :=
              loadComponentLoop_ok_shape s (comList r) 0 (i0, s2) hcomp
            subst hshape
            exact ⟨s2, i0, params, rfl, hcomp, rfl, h.symm,
              buildParams_forall2 r fuel _ _ hps⟩
      | null => exact absurd h (by simp)
      | bool b => exact absurd h (by simp)
      | int n => exact absurd h (by simp)
      | dict d2 => exact absurd h (by simp)
      | list l => exact absurd h (by simp)

end SegConfig

end PaddleRS

namespace PaddleRS

namespace SegConfig

/-- A component config with a nested meta-type dict, a scalar kwarg and a
list kwarg holding one meta-type item and one plain item. -/
def cfg6 : YDict :=
  [("type", YVal.str "FCN"),
    ("backbone", YVal.dict [("type", YVal.str "HRNet18")]),
    ("num_classes", YVal.int 19),
    ("aux", YVal.list [YVal.dict [("type", YVal.str "Resize")], YVal.int 5])]

def obj6 : OVal :=
  OVal.obj 0 "FCN" [("backbone", OVal.obj 1 "HRNet18" []),
    ("num_classes", OVal.raw (YVal.int 19)),
    ("aux", OVal.listV [OVal.obj 3 "Resize" [], OVal.raw (YVal.int 5)])]

/-- Evaluation rule: `buildParams` on the empty dict. -/
theorem buildParams_nil_eval (r : Registries) (fuel : Nat) :
    buildParams r fuel [] = Except.ok [] := by
  rw [buildParams]

/-- Evaluation rule: `buildParams` on a cons, given both sub-results. -/
theorem buildParams_cons_eval (r : Registries) (fuel : Nat) (k : String)
    (v : YVal) (rest : YDict) (pv : OVal) (ps : List (String × OVal))
    (h1 : buildParamVal r fuel v = Except.ok pv)
    (h2 : buildParams r fuel rest = Except.ok ps) :
    buildParams r fuel ((k, v) :: rest) = Except.ok ((k, pv) :: ps) := by
  rw [buildParams, h1, h2]

/-- Evaluation rule: `buildItems` on the empty list. -/
theorem buildItems_nil_eval (r : Registries) (fuel : Nat) :
    buildItems r fuel [] = Except.ok [] := by
  rw [buildItems]

/-- Evaluation rule: `buildItems` on a dict item. -/
theorem buildItems_dict_eval (r : Registries) (fuel : Nat) (d : YDict)
    (rest : List YVal) (ov : OVal) (ovs : List OVal)
    (h1 : (if hasKey d "type" then loadObject r fuel d
      else Except.ok (OVal.raw (YVal.dict d))) = Except.ok ov)
    (h2 : buildItems r fuel rest = Except.ok ovs) :
    buildItems r fuel (YVal.dict d :: rest) = Except.ok (ov :: ovs) := by
  rw [buildItems, h1, h2]

/-- Evaluation rule: `buildItems` on a non-dict item. -/
theorem buildItems_other_eval (r : Registries) (fuel : Nat) (it : YVal)
    (rest : List YVal) (ovs : List OVal)
    (hd : ∀ d, it = YVal.dict d → False)
    (h2 : buildItems r fuel rest = Except.ok ovs) :
    buildItems r fuel (it :: rest) = Except.ok (OVal.raw it :: ovs) := by
  rw [buildItems, h2]
  all_goals exact hd

/-- Evaluation rule: `buildParamVal` on a dict carrying `'type'`. -/
theorem buildParamVal_dict_eval (r : Registries) (fuel : Nat) (d : YDict)
    (ov : OVal) (h1 : hasKey d "type" = true)
    (h2 : loadObject r fuel d = Except.ok ov) :
    buildParamVal r fuel (YVal.dict d) = Except.ok ov := by
  rw [buildParamVal, if_pos h1, h2]

/-- Evaluation rule: `buildParamVal` on a list. -/
theorem buildParamVal_list_eval (r : Registries) (fuel : Nat)
    (items : List YVal) (ovs : List OVal)
    (h : buildItems r fuel items = Except.ok ovs) :
    buildParamVal r fuel (YVal.list items) = Except.ok (OVal.listV ovs) := by
  rw [buildParamVal, h]

/-- Evaluation rule: `buildParamVal` passes other values through. -/
theorem buildParamVal_other_eval (r : Registries) (fuel : Nat) (v : YVal)
    (hd : ∀ d, v = YVal.dict d → False)
    (hl : ∀ items, v = YVal.list items → False) :
    buildParamVal r fuel v = Except.ok (OVal.raw v) := by
  rw [buildParamVal]
  all_goals first
  | exact hd
  | exact hl

/-- Evaluation rule: `loadObject`, given the type lookup, the component
resolution and the built kwargs. -/
theorem loadObject_eval (r : Registries) (fuel : Nat) (cfg : YDict)
    (s : String) (i : Nat) (params : List (String × OVal))
    (h1 : lookupKey cfg "type" = some (YVal.str s))
    (h2 : loadComponent r s = Except.ok (i, s))
    (h3 : buildParams r fuel (eraseKey cfg "type") = Except.ok params) :
    loadObject r (fuel + 1) cfg = Except.ok (OVal.obj i s params) := by
  rw [loadObject, h1]
  show (match loadComponent r s with
    | Except.ok comp =>
      match buildParams r fuel (eraseKey cfg "type") with
      | Except.ok params2 => Except.ok (OVal.obj comp.1 comp.2 params2)
      | Except.error e => Except.error e
    | Except.error e => Except.error e) = Except.ok (OVal.obj i s params)
  rw [h2, h3]

/-- Evaluation: loading the nested backbone component. -/
theorem ev_backbone_obj : loadObject regsEx 1 [("type", YVal.str "HRNet18")]
    = Except.ok (OVal.obj 1 "HRNet18" []) :=
  loadObject_eval regsEx 0 [("type", YVal.str "HRNet18")] "HRNet18" 1 []
    rfl rfl (buildParams_nil_eval regsEx 0)

/-- Evaluation: the backbone dict parameter is instantiated. -/
theorem ev_backbone :
    buildParamVal regsEx 1 (YVal.dict [("type", YVal.str "HRNet18")])
    = Except.ok (OVal.obj 1 "HRNet18" []) :=
  buildParamVal_dict_eval regsEx 1 [("type", YVal.str "HRNet18")]
    (OVal.obj 1 "HRNet18" []) rfl ev_backbone_obj

/-- Evaluation: a plain int parameter passes through verbatim. -/
theorem ev_int19 : buildParamVal regsEx 1 (YVal.int 19)
    = Except.ok (OVal.raw (YVal.int 19)) :=
  buildParamVal_other_eval regsEx 1 (YVal.int 19)
    (fun _ hx => YVal.noConfusion hx) (fun _ hx => YVal.noConfusion hx)

/-- Evaluation: loading the transform component inside the list. -/
theorem ev_resize_obj : loadObject regsEx 1 [("type", YVal.str "Resize")]
    = Except.ok (OVal.obj 3 "Resize" []) :=
  loadObject_eval regsEx 0 [("type", YVal.str "Resize")] "Resize" 3 []
    rfl rfl (buildParams_nil_eval regsEx 0)

/-- Evaluation: the tail of the list parameter. -/
theorem ev_items_tail : buildItems regsEx 1 [YVal.int 5]
    = Except.ok [OVal.raw (YVal.int 5)] :=
  buildItems_other_eval regsEx 1 (YVal.int 5) [] []
    (fun _ hx => YVal.noConfusion hx) (buildItems_nil_eval regsEx 1)

/-- Evaluation: the list parameter is rebuilt item by item. -/
theorem ev_items :
    buildItems regsEx 1 [YVal.dict [("type", YVal.str "Resize")], YVal.int 5]
    = Except.ok [OVal.obj 3 "Resize" [], OVal.raw (YVal.int 5)] :=
  buildItems_dict_eval regsEx 1 [("type", YVal.str "Resize")] [YVal.int 5]
    (OVal.obj 3 "Resize" []) [OVal.raw (YVal.int 5)] ev_resize_obj ev_items_tail

/-- Evaluation: the list-valued parameter. -/
theorem ev_aux :
    buildParamVal regsEx 1
      (YVal.list [YVal.dict [("type", YVal.str "Resize")], YVal.int 5])
    = Except.ok (OVal.listV [OVal.obj 3 "Resize" [], OVal.raw (YVal.int 5)]) :=
  buildParamVal_list_eval regsEx 1
    [YVal.dict [("type", YVal.str "Resize")], YVal.int 5]
    [OVal.obj 3 "Resize" [], OVal.raw (YVal.int 5)] ev_items

/-- Evaluation: kwargs built from the last entry of `cfg6`. -/
theorem ev_params_aux :
    buildParams regsEx 1
      [("aux", YVal.list [YVal.dict [("type", YVal.str "Resize")], YVal.int 5])]
    = Except.ok
      [("aux", OVal.listV [OVal.obj 3 "Resize" [], OVal.raw (YVal.int 5)])] :=
  buildParams_cons_eval regsEx 1 "aux"
    (YVal.list [YVal.dict [("type", YVal.str "Resize")], YVal.int 5]) []
    (OVal.listV [OVal.obj 3 "Resize" [], OVal.raw (YVal.int 5)]) []
    ev_aux (buildParams_nil_eval regsEx 1)

/-- Evaluation: kwargs built from the last two entries of `cfg6`. -/
theorem ev_params_nc :
    buildParams regsEx 1
      [("num_classes", YVal.int 19),
        ("aux", YVal.list [YVal.dict [("type", YVal.str "Resize")], YVal.int 5])]
    = Except.ok [("num_classes", OVal.raw (YVal.int 19)),
        ("aux", OVal.listV [OVal.obj 3 "Resize" [], OVal.raw (YVal.int 5)])] :=
  buildParams_cons_eval regsEx 1 "num_classes" (YVal.int 19)
    [("aux", YVal.list [YVal.dict [("type", YVal.str "Resize")], YVal.int 5])]
    (OVal.raw (YVal.int 19))
    [("aux", OVal.listV [OVal.obj 3 "Resize" [], OVal.raw (YVal.int 5)])]
    ev_int19 ev_params_aux

/-- Evaluation: the full kwargs dict of `cfg6`. -/
theorem ev_params :
    buildParams regsEx 1
      [("backbone", YVal.dict [("type", YVal.str "HRNet18")]),
        ("num_classes", YVal.int 19),
        ("aux", YVal.list [YVal.dict [("type", YVal.str "Resize")], YVal.int 5])]
    = Except.ok [("backbone", OVal.obj 1 "HRNet18" []),
        ("num_classes", OVal.raw (YVal.int 19)),
        ("aux", OVal.listV [OVal.obj 3 "Resize" [], OVal.raw (YVal.int 5)])] :=
  buildParams_cons_eval regsEx 1 "backbone"
    (YVal.dict [("type", YVal.str "HRNet18")])
    [("num_classes", YVal.int 19),
      ("aux", YVal.list [YVal.dict [("type", YVal.str "Resize")], YVal.int 5])]
    (OVal.obj 1 "HRNet18" [])
    [("num_classes", OVal.raw (YVal.int 19)),
      ("aux", OVal.listV [OVal.obj 3 "Resize" [], OVal.raw (YVal.int 5)])]
    ev_backbone ev_params_nc

/-- Evaluation: `_load_object` on `cfg6` builds `obj6`. -/
theorem ev_cfg6 : loadObject regsEx (1 + 1) cfg6 = Except.ok obj6 :=
  loadObject_eval regsEx 1 cfg6 "FCN" 0
    [("backbone", OVal.obj 1 "HRNet18" []),
      ("num_classes", OVal.raw (YVal.int 19)),
      ("aux", OVal.listV [OVal.obj 3 "Resize" [], OVal.raw (YVal.int 5)])]
    rfl rfl ev_params

/-- Witness: the `RuntimeError` case on a dict without `'type'`, and the
decomposition of the object built from `cfg6`. -/
theorem c6_load_object_witness :
    loadObject regsEx (1 + 1) [("name", YVal.str "x")]
      = Except.error "RuntimeError: no type" ∧
    (∃ s i params, lookupKey cfg6 "type" = some (YVal.str s) ∧
      loadComponent regsEx s = Except.ok (i, s) ∧
      buildParams regsEx 1 (eraseKey cfg6 "type") = Except.ok params ∧
      obj6 = OVal.obj i s params ∧
      List.Forall₂ (fun e p => e.1 = p.1 ∧ paramRel regsEx 1 e.2 p.2)
        (eraseKey cfg6 "type") params) ∧
    loadObjectCallerDict cfg6 = cfg6 :=
  ⟨(c6_load_object regsEx 1 [("name", YVal.str "x")] obj6).1 rfl,
    (c6_load_object regsEx 1 cfg6 obj6).2.1 ev_cfg6,
    (c6_load_object regsEx 1 cfg6 obj6).2.2⟩

end SegConfig

end PaddleRS

namespace PaddleRS

namespace SegConfig

/-- Looking a key up in a dict filtered on a different key is unchanged. -/
theorem lookupKey_filter_ne {α : Type} (d : List (String × α)) (k0 k : String)
    (hk : k ≠ k0) :
    lookupKey (d.filter (fun p => p.1 ≠ k0)) k = lookupKey d k := by
  induction d with
  | nil => rfl
  | cons p rest ih =>
    obtain ⟨k1, v1⟩ := p
    rw [List.filter_cons]
    by_cases h1 : k1 = k0
    · subst h1
      rw [if_neg (by simp), ih, lookupKey_cons, if_neg (by simp [Ne.symm hk])]
    · rw [if_pos (by simp [h1]), lookupKey_cons, lookupKey_cons, ih]

/-- The dataset checks at the end of `Config.__init__`: a successful
result means both dataset configs were readable and at least one of them
is truthy. -/
theorem configInit_tail_ok (dic1 : YDict) (st : ConfigState)
    (trace : List String)
    (h : (match datasetConfig dic1 "train_dataset" with
      | Except.error e => Except.error e
      | Except.ok td =>
        match datasetConfig dic1 "val_dataset" with
        | Except.error e => Except.error e
        | Except.ok vd =>
          if !pyTruthy td && !pyTruthy vd then
            Except.error "ValueError: no dataset"
          else
            Except.ok (ConfigState.mk dic1 none none, ([] : List String)))
      = Except.ok (st, trace)) :
    st = ConfigState.mk dic1 none none ∧ trace = [] ∧
    ∃ td vd, datasetConfig dic1 "train_dataset" = Except.ok td ∧
      datasetConfig dic1 "val_dataset" = Except.ok vd ∧
      (pyTruthy td = true ∨ pyTruthy vd = true) := by
  cases htd : datasetConfig dic1 "train_dataset" with
  | error e => rw [htd] at h; simp at h
  | ok td =>
    rw [htd] at h
    cases hvd : datasetConfig dic1 "val_dataset" with
    | error e => rw [hvd] at h; simp at h
    | ok vd =>
      rw [hvd] at h
      replace h : (if !pyTruthy td && !pyTruthy vd then
          Except.error "ValueError: no dataset"
        else Except.ok ((ConfigState.mk dic1 none none : ConfigState),
          ([] : List String))) = Except.ok (st, trace) := h
      cases hpt : pyTruthy td with
      | true =>
        rw [hpt] at h
        replace h : Except.ok ((ConfigState.mk dic1 none none : ConfigState),
          ([] : List String)) = Except.ok (st, trace) := h
        simp only [Except.ok.injEq, Prod.mk.injEq] at h
        exact ⟨h.1.symm, h.2.symm, td, vd, rfl, rfl, Or.inl hpt⟩
      | false =>
        rw [hpt] at h
        cases hpv : pyTruthy vd with
        | true =>
          rw [hpv] at h
          replace h : Except.ok ((ConfigState.mk dic1 none none : ConfigState),
            ([] : List String)) = Except.ok (st, trace) := h
          simp only [Except.ok.injEq, Prod.mk.injEq] at h
          exact ⟨h.1.symm, h.2.symm, td, vd, rfl, rfl, Or.inr hpv⟩
        | false => rw [hpv] at h; simp at h

/-- Decomposition of a successful `Config.__init__`: every validation
passed and the resulting state carries the parsed dict and empty caches. -/
theorem configInit_ok_shape (fs : FileSys) (fuel : Nat) (path : Path)
    (lr bs iters : Option YVal) (st : ConfigState) (trace : List String)
    (h : configInit fs fuel path lr bs iters = Except.ok (st, trace)) :
    path.isEmpty = false ∧ (lookupPath fs path).isSome = true ∧
    pathEndsYaml path = true ∧
    (∃ d0 td vd, parseFromYaml fs fuel path = Except.ok d0 ∧
      updateCfg d0 lr bs iters = Except.ok st.dic ∧
      (∃ mv, lookupKey st.dic "model" = some mv ∧ mv ≠ YVal.null) ∧
      datasetConfig st.dic "train_dataset" = Except.ok td ∧
      datasetConfig st.dic "val_dataset" = Except.ok vd ∧
      (pyTruthy td = true ∨ pyTruthy vd = true)) ∧
    st.modelCache = none ∧ st.lossesCache = none ∧ trace = [] := by
  simp only [configInit] at h
  cases h1 : path.isEmpty with
  | true => rw [h1] at h; simp at h
  | false =>
    rw [h1] at h
    rw [if_neg Bool.false_ne_true] at h
    cases hd : lookupPath fs path with
    | none => rw [hd] at h; simp at h
    | some d0 =>
      rw [hd] at h
      rw [show (some d0).isNone = false from rfl] at h
      rw [if_neg Bool.false_ne_true] at h
      cases h3 : pathEndsYaml path with
      | false => rw [h3] at h; rw [if_neg Bool.false_ne_true] at h; simp at h
      | true =>
        rw [h3] at h
        rw [if_pos rfl] at h
        cases hp : parseFromYaml fs fuel path with
        | error e => rw [hp] at h; simp at h
        | ok dic0 =>
          rw [hp] at h
          replace h : (match updateCfg dic0 lr bs iters with
            | Except.error e => Except.error e
            | Except.ok dic1 =>
              match lookupKey dic1 "model" with
              | none => Except.error "RuntimeError: no model"
              | some YVal.null => Except.error "RuntimeError: no model"
              | some _ =>
                match datasetConfig dic1 "train_dataset" with
                | Except.error e => Except.error e
                | Except.ok td =>
                  match datasetConfig dic1 "val_dataset" with
                  | Except.error e => Except.error e
                  | Except.ok vd =>
                    if !pyTruthy td && !pyTruthy vd then
                      Except.error "ValueError: no dataset"
                    else
                      Except.ok (ConfigState.mk dic1 none none,
                        ([] : List String))) = Except.ok (st, trace) := h
          cases hu : updateCfg dic0 lr bs iters with
          | error e => rw [hu] at h; simp at h
          | ok dic1 =>
            rw [hu] at h
            replace h : (match lookupKey dic1 "model" with
              | none => Except.error "RuntimeError: no model"
              | some YVal.null => Except.error "RuntimeError: no model"
              | some _ =>
                match datasetConfig dic1 "train_dataset" with
                | Except.error e => Except.error e
                | Except.ok td =>
                  match datasetConfig dic1 "val_dataset" with
                  | Except.error e => Except.error e
                  | Except.ok vd =>
                    if !pyTruthy td && !pyTruthy vd then
                      Except.error "ValueError: no dataset"
                    else
                      Except.ok (ConfigState.mk dic1 none none,
                        ([] : List String))) = Except.ok (st, trace) := h
            cases hm : lookupKey dic1 "model" with
            | none => rw [hm] at h; simp at h
            | some mv =>
              rw [hm] at h
              cases mv
              case null => simp at h
              all_goals
                replace h : (match datasetConfig dic1 "train_dataset" with
                  | Except.error e => Except.error e
                  | Except.ok td =>
                    match datasetConfig dic1 "val_dataset" with
                    | Except.error e => Except.error e
                    | Except.ok vd =>
                      if !pyTruthy td && !pyTruthy vd then
                        Except.error "ValueError: no dataset"
                      else
                        Except.ok (ConfigState.mk dic1 none none,
                          ([] : List String))) = Except.ok (st, trace) := h
              all_goals
                obtain ⟨hst, htr, td, vd, htd, hvd, hor⟩ :=
                  configInit_tail_ok dic1 st trace h
              all_goals subst hst
              all_goals
                exact ⟨rfl, rfl, rfl,
                  ⟨dic0, td, vd, rfl, hu, ⟨_, hm, fun hx => YVal.noConfusion hx⟩,
                    htd, hvd, hor⟩, rfl, rfl, htr⟩

/-- C8: `Config.__init__` raises `ValueError` on an empty path,
`FileNotFoundError` on a nonexistent file, `RuntimeError` on a filename
not ending in `yml`/`yaml`, `RuntimeError` when the parsed config has no
(non-null) `model` entry, and `ValueError` when both dataset configs are
absent or empty; a `Config` object is produced only when every check
passed (`config.py`, lines 71-102). -/
theorem c8_config_init_errors (fs : FileSys) (fuel : Nat) (path : Path)
    (lr bs iters : Option YVal) (dic0 dic1 : YDict) :
    (path.isEmpty = true →
      configInit fs fuel path lr bs iters = Except.error "ValueError: path") ∧
    (path.isEmpty = false → lookupPath fs path = none →
      configInit fs fuel path lr bs iters = Except.error "FileNotFoundError") ∧
    (path.isEmpty = false → (lookupPath fs path).isSome = true →
      pathEndsYaml path = false →
      configInit fs fuel path lr bs iters
        = Except.error "RuntimeError: not yaml") ∧
    (path.isEmpty = false → (lookupPath fs path).isSome = true →
      pathEndsYaml path = true →
      parseFromYaml fs fuel path = Except.ok dic0 →
      updateCfg dic0 lr bs iters = Except.ok dic1 →
      (lookupKey dic1 "model" = none ∨
        lookupKey dic1 "model" = some YVal.null) →
      configInit fs fuel path lr bs iters
        = Except.error "RuntimeError: no model") ∧
    (∀ td vd, path.isEmpty = false → (lookupPath fs path).isSome = true →
      pathEndsYaml path = true →
      parseFromYaml fs fuel path = Except.ok dic0 →
      updateCfg dic0 lr bs iters = Except.ok dic1 →
      (∃ mv, lookupKey dic1 "model" = some mv ∧ mv ≠ YVal.null) →
      datasetConfig dic1 "train_dataset" = Except.ok td →
      datasetConfig dic1 "val_dataset" = Except.ok vd →
      pyTruthy td = false → pyTruthy vd = false →
      configInit fs fuel path lr bs iters
        = Except.error "ValueError: no dataset") ∧
    (∀ st trace, configInit fs fuel path lr bs iters = Except.ok (st, trace) →
      path.isEmpty = false ∧ (lookupPath fs path).isSome = true ∧
      pathEndsYaml path = true ∧
      ∃ d0 td vd, parseFromYaml fs fuel path = Except.ok d0 ∧
        updateCfg d0 lr bs iters = Except.ok st.dic ∧
        (∃ mv, lookupKey st.dic "model" = some mv ∧ mv ≠ YVal.null) ∧
        datasetConfig st.dic "train_dataset" = Except.ok td ∧
        datasetConfig st.dic "val_dataset" = Except.ok vd ∧
        (pyTruthy td = true ∨ pyTruthy vd = true)) := by
  refine ⟨?_, ?_, ?_, ?_, ?_, ?_⟩
  · intro h
    simp [configInit, h]
  · intro h1 h2
    simp [configInit, h1, h2]
  · intro h1 h2 h3
    obtain ⟨d, hd⟩ := Option.isSome_iff_exists.mp h2
    simp [configInit, h1, hd, h3]
  · intro h1 h2 h3 hp hu hm
    obtain ⟨d, hd⟩ := Option.isSome_iff_exists.mp h2
    rcases hm with hm | hm <;> simp [configInit, h1, hd, h3, hp, hu, hm]
  · intro td vd h1 h2 h3 hp hu hm htd hvd hpt hpv
    obtain ⟨d, hd⟩ := Option.isSome_iff_exists.mp h2
    obtain ⟨mv, hmv, hmne⟩ := hm
    cases mv
    case null => exact absurd rfl hmne
    all_goals simp [configInit, h1, hd, h3, hp, hu, hmv, htd, hvd, hpt, hpv]
  · intro st trace h
    obtain ⟨e1, e2, e3, e4, _, _, _⟩ := configInit_ok_shape fs fuel path lr bs iters st trace h
    exact ⟨e1, e2, e3, e4⟩

/-- A well-formed config dict: a model and a train dataset. -/
def dic8ok : YDict :=
  [("model", YVal.dict [("type", YVal.str "FCN")]),
    ("train_dataset", YVal.dict [("type", YVal.str "Dataset")])]

/-- A small filesystem exercising each `__init__` check. -/
def fs8 : FileSys :=
  [(["cfg", "train.yml"], dic8ok),
    (["cfg", "plain.txt"], []),
    (["cfg", "nomodel.yml"], [("iters", YVal.int 10)]),
    (["cfg", "nodata.yml"], [("model", YVal.dict [("type", YVal.str "FCN")])])]

/-- The state built from the well-formed file. -/
def st8 : ConfigState := ConfigState.mk dic8ok none none

/-- Witness: each `__init__` error raised on a concrete input, and the
decomposition of a successful construction. -/
theorem c8_config_init_errors_witness :
    configInit fs8 1 [] none none none = Except.error "ValueError: path" ∧
    configInit fs8 1 ["cfg", "missing.yml"] none none none
      = Except.error "FileNotFoundError" ∧
    configInit fs8 1 ["cfg", "plain.txt"] none none none
      = Except.error "RuntimeError: not yaml" ∧
    configInit fs8 1 ["cfg", "nomodel.yml"] none none none
      = Except.error "RuntimeError: no model" ∧
    configInit fs8 1 ["cfg", "nodata.yml"] none none none
      = Except.error "ValueError: no dataset" ∧
    ((["cfg", "train.yml"] : Path).isEmpty = false ∧
      (lookupPath fs8 ["cfg", "train.yml"]).isSome = true ∧
      pathEndsYaml ["cfg", "train.yml"] = true ∧
      ∃ d0 td vd, parseFromYaml fs8 1 ["cfg", "train.yml"] = Except.ok d0 ∧
        updateCfg d0 none none none = Except.ok st8.dic ∧
        (∃ mv, lookupKey st8.dic "model" = some mv ∧ mv ≠ YVal.null) ∧
        datasetConfig st8.dic "train_dataset" = Except.ok td ∧
        datasetConfig st8.dic "val_dataset" = Except.ok vd ∧
        (pyTruthy td = true ∨ pyTruthy vd = true)) := by
  refine ⟨?_, ?_, ?_, ?_, ?_, ?_⟩
  · exact (c8_config_init_errors fs8 1 [] none none none [] []).1 rfl
  · exact (c8_config_init_errors fs8 1 ["cfg", "missing.yml"] none none none
      [] []).2.1 rfl rfl
  · exact (c8_config_init_errors fs8 1 ["cfg", "plain.txt"] none none none
      [] []).2.2.1 rfl rfl rfl
  · exact (c8_config_init_errors fs8 1 ["cfg", "nomodel.yml"] none none none
      [("iters", YVal.int 10)] [("iters", YVal.int 10)]).2.2.2.1
      rfl rfl rfl rfl rfl (Or.inl rfl)
  · exact (c8_config_init_errors fs8 1 ["cfg", "nodata.yml"] none none none
      [("model", YVal.dict [("type", YVal.str "FCN")])]
      [("model", YVal.dict [("type", YVal.str "FCN")])]).2.2.2.2.1
      (YVal.dict []) (YVal.dict []) rfl rfl rfl rfl rfl
      ⟨YVal.dict [("type", YVal.str "FCN")], rfl, fun hx => YVal.noConfusion hx⟩
      rfl rfl rfl rfl
  · exact (c8_config_init_errors fs8 1 ["cfg", "train.yml"] none none none
      [] []).2.2.2.2.2 st8 [] rfl

end SegConfig

end PaddleRS

namespace PaddleRS

namespace SegConfig

/-- Flattening a replicated list multiplies the length. -/
theorem length_flatten_replicate {α : Type} (n : Nat) (l : List α) :
    (List.flatten (List.replicate n l)).length = n * l.length := by
  induction n with
  | zero => simp
  | succ n ih =>
    rw [List.replicate_succ, List.flatten_cons, List.length_append, ih,
      Nat.succ_mul, Nat.add_comm]

/-- The tail of `_prepare_loss` past the initial `dic.get`: a successful
result keeps a `coef` entry of the same length as the built `types`. -/
theorem prepareLoss_tail_ok (r : Registries) (fuel : Nat) (dic : YDict)
    (args0 : YDict) (res : PreparedLoss)
    (h : (match replicateTypes args0 with
      | Except.error e => Except.error e
      | Except.ok args =>
        match lookupKey args "types" with
        | some (YVal.list lt) =>
          match buildLossTypes r fuel (trainIgnoreIndex r fuel dic) lt with
          | Except.error e => Except.error e
          | Except.ok types =>
            match lookupKey args "coef" with
            | some (YVal.list lc) =>
              if lc.length ≠ types.length then
                Except.error "RuntimeError: coef vs types"
              else
                Except.ok (PreparedLoss.mk types
                  (args.filter (fun p => p.1 ≠ "types")))
            | _ => Except.error "TypeError: len coef"
        | _ => Except.error "TypeError: types") = Except.ok res) :
    ∃ lc, lookupKey res.others "coef" = some (YVal.list lc) ∧
      res.types.length = lc.length := by
  cases hrt : replicateTypes args0 with
  | error e => rw [hrt] at h; simp at h
  | ok args =>
    rw [hrt] at h
    replace h : (match lookupKey args "types" with
      | some (YVal.list lt) =>
        match buildLossTypes r fuel (trainIgnoreIndex r fuel dic) lt with
        | Except.error e => Except.error e
        | Except.ok types =>
          match lookupKey args "coef" with
          | some (YVal.list lc) =>
            if lc.length ≠ types.length then
              Except.error "RuntimeError: coef vs types"
            else
              Except.ok (PreparedLoss.mk types
                (args.filter (fun p => p.1 ≠ "types")))
          | _ => Except.error "TypeError: len coef"
      | _ => Except.error "TypeError: types") = Except.ok res := h
    cases hty : lookupKey args "types" with
    | none => rw [hty] at h; simp at h
    | some tv =>
      rw [hty] at h
      cases tv
      case list lt =>
        replace h : (match buildLossTypes r fuel (trainIgnoreIndex r fuel dic) lt with
          | Except.error e => Except.error e
          | Except.ok types =>
            match lookupKey args "coef" with
            | some (YVal.list lc) =>
              if lc.length ≠ types.length then
                Except.error "RuntimeError: coef vs types"
              else
                Except.ok (PreparedLoss.mk types
                  (args.filter (fun p => p.1 ≠ "types")))
            | _ => Except.error "TypeError: len coef") = Except.ok res := h
        cases hbl : buildLossTypes r fuel (trainIgnoreIndex r fuel dic) lt with
        | error e => rw [hbl] at h; simp at h
        | ok types =>
          rw [hbl] at h
          cases hco : lookupKey args "coef" with
          | none => rw [hco] at h; simp at h
          | some cv =>
            rw [hco] at h
            cases cv
            case list lc =>
              replace h : (if lc.length ≠ types.length then
                  Except.error "RuntimeError: coef vs types"
                else Except.ok (PreparedLoss.mk types
                  (args.filter (fun p => p.1 ≠ "types")))) = Except.ok res := h
              by_cases hq : lc.length = types.length
              · rw [if_neg (fun hx => hx hq), Except.ok.injEq] at h
                subst h
                refine ⟨lc, ?_, hq.symm⟩
                rw [show (PreparedLoss.mk types
                    (args.filter (fun p => p.1 ≠ "types"))).others
                  = args.filter (fun p => p.1 ≠ "types") from rfl]
                rw [lookupKey_filter_ne args "types" "coef" (by decide), hco]
              · rw [if_pos hq] at h; simp at h
            all_goals simp at h
      all_goals simp at h

/-- C9: `_prepare_loss` raises `ValueError` when `types` or `coef` is
missing, replicates a single type `len(coef)` times, raises `ValueError`
on any other length mismatch, and every successful result keeps
`len(types) == len(coef)` (`config.py`, lines 323-367). -/
theorem c9_prepare_loss (r : Registries) (fuel : Nat) (dic : YDict)
    (lossName : String) (args0 : YDict) :
    (lookupKey dic lossName = some (YVal.dict args0) →
      (hasKey args0 "types" = false ∨ hasKey args0 "coef" = false) →
      prepareLoss r fuel dic lossName
        = Except.error "ValueError: missing types or coef") ∧
    (∀ lt lc, lookupKey args0 "types" = some (YVal.list lt) →
      lookupKey args0 "coef" = some (YVal.list lc) →
      lt.length = 1 → lt.length ≠ lc.length →
      replicateTypes args0 = Except.ok (setKey args0 "types"
        (YVal.list (List.flatten (List.replicate lc.length lt)))) ∧
      (List.flatten (List.replicate lc.length lt)).length = lc.length) ∧
    (∀ lt lc, lookupKey dic lossName = some (YVal.dict args0) →
      lookupKey args0 "types" = some (YVal.list lt) →
      lookupKey args0 "coef" = some (YVal.list lc) →
      lt.length ≠ lc.length → lt.length ≠ 1 →
      prepareLoss r fuel dic lossName
        = Except.error "ValueError: types vs coef") ∧
    (∀ res, prepareLoss r fuel dic lossName = Except.ok res →
      ∃ lc, lookupKey res.others "coef" = some (YVal.list lc) ∧
        res.types.length = lc.length) := by
  refine ⟨?_, ?_, ?_, ?_⟩
  · intro hlk hmiss
    have hrt : replicateTypes args0
        = Except.error "ValueError: missing types or coef" := by
      rcases hmiss with hmk | hmk <;> simp [replicateTypes, hmk]
    simp [prepareLoss, hlk, hrt]
  · intro lt lc hlt hlc h1 hne
    have ht : hasKey args0 "types" = true := by
      cases hq : hasKey args0 "types"
      · rw [lookupKey_eq_none_of_hasKey_false args0 "types" hq] at hlt
        exact absurd hlt (by simp)
      · rfl
    have hc : hasKey args0 "coef" = true := by
      cases hq : hasKey args0 "coef"
      · rw [lookupKey_eq_none_of_hasKey_false args0 "coef" hq] at hlc
        exact absurd hlc (by simp)
      · rfl
    refine ⟨?_, ?_⟩
    · simp only [replicateTypes, ht, hc, Bool.and_self, if_true, hlt, hlc]
      rw [if_pos hne, if_pos h1]
    · rw [length_flatten_replicate, h1, Nat.mul_one]
  · intro lt lc hlk hlt hlc hne h1
    have ht : hasKey args0 "types" = true := by
      cases hq : hasKey args0 "types"
      · rw [lookupKey_eq_none_of_hasKey_false args0 "types" hq] at hlt
        exact absurd hlt (by simp)
      · rfl
    have hc : hasKey args0 "coef" = true := by
      cases hq : hasKey args0 "coef"
      · rw [lookupKey_eq_none_of_hasKey_false args0 "coef" hq] at hlc
        exact absurd hlc (by simp)
      · rfl
    have hrt : replicateTypes args0 = Except.error "ValueError: types vs coef" := by
      simp only [replicateTypes, ht, hc, Bool.and_self, if_true, hlt, hlc]
      rw [if_pos hne, if_neg h1]
    simp [prepareLoss, hlk, hrt]
  · intro res h
    simp only [prepareLoss] at h
    cases hlk0 : lookupKey dic lossName with
    | none =>
      rw [hlk0] at h
      exact prepareLoss_tail_ok r fuel dic [] res h
    | some v =>
      rw [hlk0] at h
      cases v
      case dict d => exact prepareLoss_tail_ok r fuel dic d res h
      all_goals simp at h

/-- Evaluation rule: `train_dataset` on a truthy dict config. -/
theorem trainDataset_eval (r : Registries) (fuel : Nat) (dic : YDict)
    (d : YDict) (o : OVal)
    (h0 : lookupKey dic "train_dataset" = some (YVal.dict d))
    (h1 : pyTruthy (YVal.dict d) = true)
    (h2 : loadObject r fuel d = Except.ok o) :
    trainDataset r fuel dic = Except.ok (some o) := by
  simp [trainDataset, datasetConfig, h0, h1, h2]

/-- Evaluation rule: `train_dataset.ignore_index` on a loaded dataset. -/
theorem trainIgnoreIndex_eval (r : Registries) (fuel : Nat) (dic : YDict)
    (o : OVal) (h : trainDataset r fuel dic = Except.ok (some o)) :
    trainIgnoreIndex r fuel dic = Except.ok (datasetIgnoreIndex o) := by
  simp [trainIgnoreIndex, h]

/-- Evaluation rule: the `types` loop on the empty list. -/
theorem buildLossTypes_nil_eval (r : Registries) (fuel : Nat)
    (ir : Except String YVal) :
    buildLossTypes r fuel ir [] = Except.ok [] := by
  simp [buildLossTypes]

/-- Evaluation rule: one pass of the `types` loop, given the item update
and the loaded component. -/
theorem buildLossTypes_cons_eval (r : Registries) (fuel : Nat)
    (ir : Except String YVal) (d : YDict) (rest : List YVal) (tv : YVal)
    (d2 : YDict) (o : OVal) (os : List OVal)
    (h0 : lookupKey d "type" = some tv)
    (h1 : (if yvalBeq tv (YVal.str "MixedLoss") then Except.ok d
      else
        match ir with
        | Except.error e => Except.error e
        | Except.ok iv =>
          if hasKey d "ignore_index" then
            match lookupKey d "ignore_index" with
            | some ivItem =>
              if yvalBeq ivItem iv then Except.ok (setKey d "ignore_index" iv)
              else Except.error "AssertionError: ignore_index"
            | none => Except.error "KeyError"
          else Except.ok (setKey d "ignore_index" iv)) = Except.ok d2)
    (h2 : loadObject r fuel d2 = Except.ok o)
    (h3 : buildLossTypes r fuel ir rest = Except.ok os) :
    buildLossTypes r fuel ir (YVal.dict d :: rest) = Except.ok (o :: os) := by
  simp [buildLossTypes, h0, h1, h2, h3]

/-- Evaluation rule: `_prepare_loss`, given all sub-results. -/
theorem prepareLoss_eval (r : Registries) (fuel : Nat) (dic : YDict)
    (lossName : String) (args0 args : YDict) (lt : List YVal)
    (types : List OVal) (lc : List YVal)
    (h0 : lookupKey dic lossName = some (YVal.dict args0))
    (h1 : replicateTypes args0 = Except.ok args)
    (h2 : lookupKey args "types" = some (YVal.list lt))
    (h3 : buildLossTypes r fuel (trainIgnoreIndex r fuel dic) lt
      = Except.ok types)
    (h4 : lookupKey args "coef" = some (YVal.list lc))
    (h5 : lc.length = types.length) :
    prepareLoss r fuel dic lossName
      = Except.ok (PreparedLoss.mk types
        (args.filter (fun p => p.1 ≠ "types"))) := by
  simp [prepareLoss, h0, h1, h2, h3, h4, h5]

/-- Evaluation: loading the model component. -/
theorem ev_fcn : loadObject regsEx 1 [("type", YVal.str "FCN")]
    = Except.ok (OVal.obj 0 "FCN" []) :=
  loadObject_eval regsEx 0 [("type", YVal.str "FCN")] "FCN" 0 []
    rfl rfl (buildParams_nil_eval regsEx 0)

/-- Evaluation: loading the train dataset component. -/
theorem ev_ds : loadObject regsEx 1 [("type", YVal.str "Dataset")]
    = Except.ok (OVal.obj 2 "Dataset" []) :=
  loadObject_eval regsEx 0 [("type", YVal.str "Dataset")] "Dataset" 2 []
    rfl rfl (buildParams_nil_eval regsEx 0)

/-- Evaluation: loading the loss component once `ignore_index` is set. -/
theorem ev_cel : loadObject regsEx 1
    [("type", YVal.str "CrossEntropyLoss"), ("ignore_index", YVal.int 255)]
    = Except.ok (OVal.obj 4 "CrossEntropyLoss"
      [("ignore_index", OVal.raw (YVal.int 255))]) :=
  loadObject_eval regsEx 0
    [("type", YVal.str "CrossEntropyLoss"), ("ignore_index", YVal.int 255)]
    "CrossEntropyLoss" 4 [("ignore_index", OVal.raw (YVal.int 255))]
    rfl rfl
    (buildParams_cons_eval regsEx 0 "ignore_index" (YVal.int 255) []
      (OVal.raw (YVal.int 255)) []
      (buildParamVal_other_eval regsEx 0 (YVal.int 255)
        (fun _ hx => YVal.noConfusion hx) (fun _ hx => YVal.noConfusion hx))
      (buildParams_nil_eval regsEx 0))

/-- A config dict with a train dataset and a well-formed loss section. -/
def dic9 : YDict :=
  [("train_dataset", YVal.dict [("type", YVal.str "Dataset")]),
    ("loss", YVal.dict
      [("types", YVal.list [YVal.dict [("type", YVal.str "CrossEntropyLoss")]]),
        ("coef", YVal.list [YVal.int 1])])]

/-- Evaluation: the train dataset ignore_index of `dic9`. -/
theorem ev_tii : trainIgnoreIndex regsEx 1 dic9 = Except.ok (YVal.int 255) := by
  rw [trainIgnoreIndex_eval regsEx 1 dic9 (OVal.obj 2 "Dataset" [])
    (trainDataset_eval regsEx 1 dic9 [("type", YVal.str "Dataset")]
      (OVal.obj 2 "Dataset" []) rfl rfl ev_ds)]
  rfl

/-- Evaluation: the loaded loss types list at a forced ignore_index. -/
theorem ev_blt : buildLossTypes regsEx 1 (Except.ok (YVal.int 255))
    [YVal.dict [("type", YVal.str "CrossEntropyLoss")]]
    = Except.ok [OVal.obj 4 "CrossEntropyLoss"
      [("ignore_index", OVal.raw (YVal.int 255))]] :=
  buildLossTypes_cons_eval regsEx 1 (Except.ok (YVal.int 255))
    [("type", YVal.str "CrossEntropyLoss")] [] (YVal.str "CrossEntropyLoss")
    [("type", YVal.str "CrossEntropyLoss"), ("ignore_index", YVal.int 255)]
    (OVal.obj 4 "CrossEntropyLoss" [("ignore_index", OVal.raw (YVal.int 255))])
    [] rfl (by simp [yvalBeq, hasKey, setKey]) ev_cel
    (buildLossTypes_nil_eval regsEx 1 (Except.ok (YVal.int 255)))

/-- Evaluation: the loaded loss types list of `dic9`. -/
theorem ev_blt9 : buildLossTypes regsEx 1 (trainIgnoreIndex regsEx 1 dic9)
    [YVal.dict [("type", YVal.str "CrossEntropyLoss")]]
    = Except.ok [OVal.obj 4 "CrossEntropyLoss"
      [("ignore_index", OVal.raw (YVal.int 255))]] := by
  rw [ev_tii]
  exact ev_blt

/-- The prepared loss built from `dic9`. -/
def pl9 : PreparedLoss :=
  PreparedLoss.mk
    [OVal.obj 4 "CrossEntropyLoss" [("ignore_index", OVal.raw (YVal.int 255))]]
    [("coef", YVal.list [YVal.int 1])]

/-- Evaluation: `_prepare_loss('loss')` on `dic9`. -/
theorem ev_pl : prepareLoss regsEx 1 dic9 "loss" = Except.ok pl9 := by
  rw [prepareLoss_eval regsEx 1 dic9 "loss"
    [("types", YVal.list [YVal.dict [("type", YVal.str "CrossEntropyLoss")]]),
      ("coef", YVal.list [YVal.int 1])]
    [("types", YVal.list [YVal.dict [("type", YVal.str "CrossEntropyLoss")]]),
      ("coef", YVal.list [YVal.int 1])]
    [YVal.dict [("type", YVal.str "CrossEntropyLoss")]]
    [OVal.obj 4 "CrossEntropyLoss" [("ignore_index", OVal.raw (YVal.int 255))]]
    [YVal.int 1] rfl rfl rfl ev_blt9 rfl rfl]
  rfl

/-- A loss config missing `types`. -/
def dic9a : YDict := [("loss", YVal.dict [("coef", YVal.list [YVal.int 1])])]

/-- A loss section whose single type must be replicated. -/
def args9b : YDict :=
  [("types", YVal.list [YVal.dict [("type", YVal.str "CrossEntropyLoss")]]),
    ("coef", YVal.list [YVal.int 1, YVal.int 2])]

/-- A loss config with two types and three coefficients. -/
def dic9c : YDict :=
  [("loss", YVal.dict
    [("types", YVal.list [YVal.dict [("type", YVal.str "CrossEntropyLoss")],
      YVal.dict [("type", YVal.str "CrossEntropyLoss")]]),
      ("coef", YVal.list [YVal.int 1, YVal.int 2, YVal.int 3])])]

/-- Witness: the missing-key and length-mismatch errors, the single-type
replication and the length invariant of a successful `_prepare_loss`. -/
theorem c9_prepare_loss_witness :
    prepareLoss regsEx 1 dic9a "loss"
      = Except.error "ValueError: missing types or coef" ∧
    (replicateTypes args9b = Except.ok (setKey args9b "types"
      (YVal.list (List.flatten (List.replicate
        ([YVal.int 1, YVal.int 2] : List YVal).length
        [YVal.dict [("type", YVal.str "CrossEntropyLoss")]])))) ∧
      (List.flatten (List.replicate
        ([YVal.int 1, YVal.int 2] : List YVal).length
        [YVal.dict [("type", YVal.str "CrossEntropyLoss")]])).length
        = ([YVal.int 1, YVal.int 2] : List YVal).length) ∧
    prepareLoss regsEx 1 dic9c "loss"
      = Except.error "ValueError: types vs coef" ∧
    (∃ lc, lookupKey pl9.others "coef" = some (YVal.list lc) ∧
      pl9.types.length = lc.length) := by
  refine ⟨?_, ?_, ?_, ?_⟩
  · exact (c9_prepare_loss regsEx 1 dic9a "loss"
      [("coef", YVal.list [YVal.int 1])]).1 rfl (Or.inl rfl)
  · exact (c9_prepare_loss regsEx 1 [] "loss" args9b).2.1
      [YVal.dict [("type", YVal.str "CrossEntropyLoss")]]
      [YVal.int 1, YVal.int 2] rfl rfl rfl (by decide)
  · exact (c9_prepare_loss regsEx 1 dic9c "loss"
      [("types", YVal.list [YVal.dict [("type", YVal.str "CrossEntropyLoss")],
        YVal.dict [("type", YVal.str "CrossEntropyLoss")]]),
        ("coef", YVal.list [YVal.int 1, YVal.int 2, YVal.int 3])]).2.2.1
      [YVal.dict [("type", YVal.str "CrossEntropyLoss")],
        YVal.dict [("type", YVal.str "CrossEntropyLoss")]]
      [YVal.int 1, YVal.int 2, YVal.int 3] rfl rfl rfl (by decide) (by decide)
  · exact (c9_prepare_loss regsEx 1 dic9 "loss" []).2.2.2 pl9 ev_pl

end SegConfig

end PaddleRS

namespace PaddleRS

namespace SegConfig

/-- A successfully loaded object is always a constructed component. -/
theorem loadObject_ok_obj (r : Registries) (fuel : Nat) (cfg : YDict)
    (o : OVal) (h : loadObject r fuel cfg = Except.ok o) :
    ∃ i s ps, o = OVal.obj i s ps := by
  cases fuel with
  | zero => rw [loadObject] at h; exact absurd h (by simp)
  | succ f =>
    replace h : loadObject r (f + 1) cfg = Except.ok o := h
    rw [loadObject] at h
    cases htv : lookupKey cfg "type" with
    | none => rw [htv] at h; exact absurd h (by simp)
    | some tv =>
      rw [htv] at h
      cases tv
      case str s =>
        replace h : (match loadComponent r s with
          | Except.ok comp =>
            match buildParams r f (eraseKey cfg "type") with
            | Except.ok params => Except.ok (OVal.obj comp.1 comp.2 params)
            | Except.error e => Except.error e
          | Except.error e => Except.error e) = Except.ok o := h
        cases hcomp : loadComponent r s with
        | error e => rw [hcomp] at h; exact absurd h (by simp)
        | ok comp =>
          rw [hcomp] at h
          cases hps : buildParams r f (eraseKey cfg "type") with
          | error e => rw [hps] at h; exact absurd h (by simp)
          | ok params =>
            rw [hps, Except.ok.injEq] at h
            exact ⟨comp.1, comp.2, params, h.symm⟩
      all_goals exact absurd h (by simp)

/-- Evaluation rule: the `model` property on a cold cache. -/
theorem modelProp_eval (r : Registries) (fuel : Nat) (st : ConfigState)
    (mcfg : YDict) (o : OVal)
    (h0 : lookupKey st.dic "model" = some (YVal.dict mcfg))
    (h1 : st.modelCache = none)
    (h2 : loadObject r fuel mcfg = Except.ok o) :
    modelProp r fuel st
      = Except.ok (o, { st with modelCache := some o }, builtNames o) := by
  simp [modelProp, h0, h1, h2]

/-- Evaluation rule: the `loss` property on a cold cache. -/
theorem lossProp_eval (r : Registries) (fuel : Nat) (st : ConfigState)
    (l : PreparedLoss)
    (h0 : st.lossesCache = none)
    (h1 : prepareLoss r fuel st.dic "loss" = Except.ok l) :
    lossProp r fuel st
      = Except.ok (l, { st with lossesCache := some l },
        (l.types.map builtNames).flatten) := by
  simp [lossProp, h0, h1]

/-- C3: `Config.__init__` builds no components (the trace of a successful
construction is empty and both caches start out `None`); the `model` and
`loss` properties build once, cache, and every further access returns the
identical cached object with an empty build trace (`config.py`,
lines 71-102, 369-374 and 311-315). -/
theorem c3_lazy_properties (r : Registries) (fuel : Nat) :
    (∀ fs path lr bs iters st trace,
      configInit fs fuel path lr bs iters = Except.ok (st, trace) →
      trace = [] ∧ st.modelCache = none ∧ st.lossesCache = none) ∧
    (∀ st m st2 trace, st.modelCache = none →
      modelProp r fuel st = Except.ok (m, st2, trace) →
      st2.modelCache = some m ∧ st2.dic = st.dic ∧
      st2.lossesCache = st.lossesCache ∧
      modelProp r fuel st2 = Except.ok (m, st2, [])) ∧
    (∀ st l st2 trace, st.lossesCache = none →
      lossProp r fuel st = Except.ok (l, st2, trace) →
      st2.lossesCache = some l ∧ st2.dic = st.dic ∧
      st2.modelCache = st.modelCache ∧
      lossProp r fuel st2 = Except.ok (l, st2, [])) := by
  refine ⟨?_, ?_, ?_⟩
  · intro fs path lr bs iters st trace h
    obtain ⟨_, _, _, _, hmc, hlc, htr⟩ :=
      configInit_ok_shape fs fuel path lr bs iters st trace h
    exact ⟨htr, hmc, hlc⟩
  · intro st m st2 trace hc h
    simp only [modelProp] at h
    cases hlk : lookupKey st.dic "model" with
    | none => rw [hlk] at h; simp at h
    | some mv =>
      rw [hlk] at h
      cases mv
      case dict mcfg =>
        replace h : (match st.modelCache with
          | some m0 =>
            if ovalTruthy m0 then Except.ok (m0, st, ([] : List String))
            else
              match loadObject r fuel mcfg with
              | Except.ok o =>
                Except.ok (o, { st with modelCache := some o }, builtNames o)
              | Except.error e => Except.error e
          | none =>
            match loadObject r fuel mcfg with
            | Except.ok o =>
              Except.ok (o, { st with modelCache := some o }, builtNames o)
            | Except.error e => Except.error e) = Except.ok (m, st2, trace) := h
        rw [hc] at h
        cases hlo : loadObject r fuel mcfg with
        | error e => rw [hlo] at h; simp at h
        | ok o =>
          rw [hlo] at h
          replace h : Except.ok (o, { st with modelCache := some o },
            builtNames o) = Except.ok (m, st2, trace) := h
          simp only [Except.ok.injEq, Prod.mk.injEq] at h
          obtain ⟨h1, h2, h3⟩ := h
          subst h1
          subst h2
          obtain ⟨i, s, ps, ho⟩ := loadObject_ok_obj r fuel mcfg o hlo
          subst ho
          refine ⟨by simp, by simp, by simp, ?_⟩
          simp [modelProp, hlk, ovalTruthy]
      all_goals simp at h
  · intro st l st2 trace hc h
    simp only [lossProp] at h
    rw [hc] at h
    cases hpl : prepareLoss r fuel st.dic "loss" with
    | error e => rw [hpl] at h; simp at h
    | ok l0 =>
      rw [hpl] at h
      replace h : Except.ok (l0, { st with lossesCache := some l0 },
        (l0.types.map builtNames).flatten) = Except.ok (l, st2, trace) := h
      simp only [Except.ok.injEq, Prod.mk.injEq] at h
      obtain ⟨h1, h2, h3⟩ := h
      subst h1
      subst h2
      refine ⟨by simp, by simp, by simp, ?_⟩
      simp [lossProp]

/-- A state holding only a model config, before any property access. -/
def st3 : ConfigState :=
  ConfigState.mk [("model", YVal.dict [("type", YVal.str "FCN")])] none none

/-- The same state after the first `model` access. -/
def st3b : ConfigState :=
  ConfigState.mk [("model", YVal.dict [("type", YVal.str "FCN")])]
    (some (OVal.obj 0 "FCN" [])) none

/-- Evaluation: the first `model` access on `st3`. -/
theorem ev_model : modelProp regsEx 1 st3
    = Except.ok (OVal.obj 0 "FCN" [], st3b, ["FCN"]) := by
  rw [modelProp_eval regsEx 1 st3 [("type", YVal.str "FCN")]
    (OVal.obj 0 "FCN" []) rfl rfl ev_fcn]
  rfl

/-- A state over `dic9`, before any property access. -/
def st9 : ConfigState := ConfigState.mk dic9 none none

/-- The same state after the first `loss` access. -/
def st9b : ConfigState := ConfigState.mk dic9 none (some pl9)

/-- Evaluation: the first `loss` access on `st9`. -/
theorem ev_loss : lossProp regsEx 1 st9
    = Except.ok (pl9, st9b, ["CrossEntropyLoss"]) := by
  rw [lossProp_eval regsEx 1 st9 pl9 rfl ev_pl]
  rfl

/-- Witness: a concrete construction with empty trace and caches, and
concrete first and second accesses of `model` and `loss`. -/
theorem c3_lazy_properties_witness :
    (([] : List String) = [] ∧ st8.modelCache = none ∧
      st8.lossesCache = none) ∧
    (st3b.modelCache = some (OVal.obj 0 "FCN" []) ∧ st3b.dic = st3.dic ∧
      st3b.lossesCache = st3.lossesCache ∧
      modelProp regsEx 1 st3b
        = Except.ok (OVal.obj 0 "FCN" [], st3b, [])) ∧
    (st9b.lossesCache = some pl9 ∧ st9b.dic = st9.dic ∧
      st9b.modelCache = st9.modelCache ∧
      lossProp regsEx 1 st9b = Except.ok (pl9, st9b, [])) := by
  refine ⟨?_, ?_, ?_⟩
  · exact (c3_lazy_properties regsEx 1).1 fs8 ["cfg", "train.yml"]
      none none none st8 [] rfl
  · exact (c3_lazy_properties regsEx 1).2.1 st3 (OVal.obj 0 "FCN" []) st3b
      ["FCN"] rfl ev_model
  · exact (c3_lazy_properties regsEx 1).2.2 st9 pl9 st9b
      ["CrossEntropyLoss"] rfl ev_loss

end SegConfig

end PaddleRS
